import Mathlib

/-!
# OLED draw utility: cursor, pixel painter and gesture interpreter

A shallow embedding of `src/main.c`.  The C globals become the fields of `State`,
every C function becomes a function on `State`, and the values the drivers hand
to the program in one pass of the `while(1)` body (`AdcChanged()`, `AdcRead()`,
`SW4`) are gathered in `Inputs`.

Machine integers are natural numbers: `uint8_t` arithmetic is taken `% 256`,
`uint16_t` readings `% 65536`; the subtractions of `uint16_t` values are done in
`Int`, as the 32-bit integer promotion of the PIC32 does.

The display geometry `OLED_DRIVER_PIXEL_COLUMNS` / `OLED_DRIVER_PIXEL_ROWS` comes
from a driver header that is not part of the sources; the functions take it as
the parameters `cols` and `rows`.
-/

namespace OledDraw

/-! ## Constants and enumerations (main.c, lines 31-58) -/

/-- `#define ADC_CHANGED_BUFFER 3` -/
def ADC_CHANGED_BUFFER : Int := 3

/-- `#define LONG_PRESS 2` -/
def LONG_PRESS : Nat := 2

/-- `#define P_OBJ_WIDTH 20` -/
def P_OBJ_WIDTH : Nat := 20

/-- `#define P_OBJ_HEIGHT 20` -/
def P_OBJ_HEIGHT : Nat := 20

/-- Modelled from the spec: the macro `TRUE` of the absent `BOARD.h`; the spec
calls the stored value "true"/"on". -/
def TRUE : Nat := 1

/-- Modelled from the spec: the macro `FALSE` of the absent `BOARD.h`; the spec
calls the stored value "false"/"off". -/
def FALSE : Nat := 0

/-- The C enum `Direction`, kept as its integer code: `MoveCursor` has a
`default:` arm for every other value. -/
abbrev Direction := Nat

/-- `NORTH` is the first enumerator of `Direction`. -/
def NORTH : Direction := 0
/-- `EAST` is the second enumerator of `Direction`. -/
def EAST : Direction := 1
/-- `SOUTH` is the third enumerator of `Direction`. -/
def SOUTH : Direction := 2
/-- `WEST` is the fourth enumerator of `Direction`. -/
def WEST : Direction := 3

/-- The C enum `Mode` (mode for setting the current pixel). -/
inductive Mode where
  | P_SET
  | P_RESET
  | P_TOGGLE
  deriving DecidableEq, Repr

/-- `enum Axis`: enumerator `X`, stored in the `uint8_t slideAxis`. -/
def X : Nat := 0
/-- `enum Axis`: enumerator `Y`, stored in the `uint8_t slideAxis`. -/
def Y : Nat := 1

/-- Modelled from the spec: `ButtonEventFlags` of the absent `Buttons.h`, "one of
none, btn1Down, btn1Up, btn2Down, btn2Up, btn3Down, btn3Up, btn4Down, btn4Up". -/
inductive ButtonEventFlags where
  | BUTTON_EVENT_NONE
  | BUTTON_EVENT_1UP
  | BUTTON_EVENT_1DOWN
  | BUTTON_EVENT_2UP
  | BUTTON_EVENT_2DOWN
  | BUTTON_EVENT_3UP
  | BUTTON_EVENT_3DOWN
  | BUTTON_EVENT_4UP
  | BUTTON_EVENT_4DOWN
  deriving DecidableEq, Repr

/-- Modelled from the spec: `OledColor` of the absent `Oled.h`, "color:
on/off" (on = bright = white, off = dark = black). -/
inductive OledColor where
  | OLED_COLOR_BLACK
  | OLED_COLOR_WHITE
  deriving DecidableEq, Repr

open Mode ButtonEventFlags OledColor

/-! ## Program state (main.c, lines 60-67) -/

/-- The module-level variables of `main.c`, the `static` of `AdcDidChange`, and
the three things the program writes outside itself: the driver frame written by
`OledSetPixel`, the frame last pushed by `OledUpdate`, and the text printed. -/
structure State where
  /-- `ButtonEventFlags buttonEvent` -/
  buttonEvent : ButtonEventFlags
  /-- `uint8_t oled[COLUMNS][ROWS]`, read as `oled x y` -/
  oled : Nat → Nat → Nat
  /-- `cursor[X]` -/
  cursorX : Nat
  /-- `cursor[Y]` -/
  cursorY : Nat
  /-- `uint8_t buttonPressTimer` -/
  buttonPressTimer : Nat
  /-- `uint8_t slideAxis` -/
  slideAxis : Nat
  /-- `buttonDown[2]` -/
  buttonDown2 : Nat
  /-- `buttonDown[3]` -/
  buttonDown3 : Nat
  /-- `adc[PREVIOUS]` -/
  adcPrevious : Nat
  /-- `adc[NEW]` -/
  adcNew : Nat
  /-- `static uint16_t previousAdc` of `AdcDidChange` -/
  previousAdc : Nat
  /-- Modelled from the spec: the frame of the absent display driver, written
  by `OledSetPixel` ("set a pixel to a color at (x, y)"). -/
  display : Nat → Nat → OledColor
  /-- Modelled from the spec: what `OledUpdate` last pushed ("push the
  framebuffer to the physical display"). -/
  screen : Nat → Nat → OledColor
  /-- Everything `printf` has written so far. -/
  stdout : String

/-- What the drivers report during one pass of the loop body. -/
structure Inputs where
  /-- the result of `AdcChanged()` -/
  adcChanged : Bool
  /-- the result of `AdcRead()` -/
  adcRead : Nat
  /-- the switch `SW4` -/
  sw4 : Bool

/-- The state at power-on: every global zero-initialised (line 61-67, 292). -/
def initState : State :=
  { buttonEvent := BUTTON_EVENT_NONE
    oled := fun _ _ => 0
    cursorX := 0
    cursorY := 0
    buttonPressTimer := 0
    slideAxis := X
    buttonDown2 := 0
    buttonDown3 := 0
    adcPrevious := 0
    adcNew := 0
    previousAdc := 0
    display := fun _ _ => OLED_COLOR_BLACK
    screen := fun _ _ => OLED_COLOR_BLACK
    stdout := "" }

/-- The assignment `g[x][y] = v` on a two-dimensional array read as a function. -/
def setCell {α : Type} (g : Nat → Nat → α) (x y : Nat) (v : α) : Nat → Nat → α :=
  fun i j => if i = x ∧ j = y then v else g i j

/-- The cursor is inside the `cols × rows` grid. -/
def inGrid (cols rows : Nat) (s : State) : Prop :=
  s.cursorX < cols ∧ s.cursorY < rows

instance (cols rows : Nat) (s : State) : Decidable (inGrid cols rows s) := by
  unfold inGrid; infer_instance

/-! ## Interrupt handlers (main.c, lines 199-214) -/

/-- `TimerInterrupt100Hz`: stores the result `ev` of `ButtonsCheckEvents()`. -/
def TimerInterrupt100Hz (ev : ButtonEventFlags) (s : State) : State :=
  { s with buttonEvent := ev }

/-- `TimerInterrupt5Hz`: `buttonPressTimer += 1` on a `uint8_t`. -/
def TimerInterrupt5Hz (s : State) : State :=
  { s with buttonPressTimer := (s.buttonPressTimer + 1) % 256 }

/-! ## MoveCursor (main.c, lines 220-238) -/

/-- `MoveCursor(dir)`.  `none` is the `default: FATAL_ERROR()` arm.  The
comparisons against `COLUMNS-1` / `ROWS-1` are signed, as in C. -/
def MoveCursor (cols rows : Nat) (dir : Direction) (s : State) : Option State :=
  if dir = NORTH then
    some (if s.cursorY > 0 then { s with cursorY := (s.cursorY - 1) % 256 } else s)
  else if dir = EAST then
    some (if (s.cursorX : Int) < (cols : Int) - 1
      then { s with cursorX := (s.cursorX + 1) % 256 } else s)
  else if dir = SOUTH then
    some (if (s.cursorY : Int) < (rows : Int) - 1
      then { s with cursorY := (s.cursorY + 1) % 256 } else s)
  else if dir = WEST then
    some (if s.cursorX > 0 then { s with cursorX := (s.cursorX - 1) % 256 } else s)
  else
    none

/-- A finite sequence of `MoveCursor` calls, stopping at a fatal error. -/
def moveSeq (cols rows : Nat) : List Direction → State → Option State
  | [], s => some s
  | d :: ds, s => (MoveCursor cols rows d s).bind (moveSeq cols rows ds)

/-! ## SetCurrentPixel (main.c, lines 243-283) -/

/-- The `printf` calls of the inner loop body for cell `oled[i][j]` (lines 274-276). -/
def exportCell (oled : Nat → Nat → Nat) (i j : Nat) : List String :=
  [if oled i j ≠ 0 then "1" else "0"] ++ (if j ≠ P_OBJ_HEIGHT - 1 then [", "] else [])

/-- The `printf` calls of one pass of the outer loop (lines 272-279). -/
def exportGroup (oled : Nat → Nat → Nat) (i : Nat) : List String :=
  ["\x7b "] ++ ((List.range P_OBJ_HEIGHT).map (exportCell oled i)).flatten ++ ["\x7d"]
    ++ (if i ≠ P_OBJ_WIDTH - 1 then [", "] else [])

/-- The arguments of all `printf` calls of the export block, in order (lines 270-281). -/
def exportChunks (oled : Nat → Nat → Nat) : List String :=
  ["\n\n\"\x7b "] ++ ((List.range P_OBJ_WIDTH).map (exportGroup oled)).flatten ++ [" \x7d\""]

/-- `SetCurrentPixel(mode)`, with `sw4` the value of `SW4` read at line 268.
The `static OledColor color` is assigned on every path before it is read, so it
is a local here.  Line 253 stores `TRUE` in the `P_RESET` branch. -/
def SetCurrentPixel (sw4 : Bool) (mode : Mode) (s : State) : State :=
  let cv : OledColor × Nat :=
    if mode = P_SET then (OLED_COLOR_WHITE, TRUE)
    else if mode = P_RESET then (OLED_COLOR_BLACK, TRUE)
    else if ¬ (s.oled s.cursorX s.cursorY ≠ 0) then (OLED_COLOR_WHITE, TRUE)
    else (OLED_COLOR_BLACK, FALSE)
  let oled1 := setCell s.oled s.cursorX s.cursorY cv.2
  let display1 := setCell s.display s.cursorX s.cursorY cv.1
  { s with
    oled := oled1
    display := display1
    screen := display1
    stdout := if sw4 then s.stdout ++ String.join (exportChunks oled1) else s.stdout }

/-! ## AdcDidChange (main.c, lines 290-302) -/

/-- `AdcDidChange(&adc[NEW])`: the new state and the returned `TRUE`/`FALSE`. -/
def AdcDidChange (inp : Inputs) (s : State) : State × Nat :=
  if inp.adcChanged then
    let newAdc := inp.adcRead % 65536
    if (s.previousAdc : Int) - (newAdc : Int) > ADC_CHANGED_BUFFER
        ∨ (s.previousAdc : Int) - (newAdc : Int) < -ADC_CHANGED_BUFFER then
      ({ s with adcNew := newAdc, previousAdc := newAdc }, TRUE)
    else (s, FALSE)
  else (s, FALSE)

/-! ## The body of `while(1)` (main.c, lines 104-190) -/

/-- The condition of line 107: the slide-paint gesture fires. -/
def gestureFires (inp : Inputs) (s : State) : Bool :=
  decide ((AdcDidChange inp s).2 ≠ 0
    ∧ ((AdcDidChange inp s).1.buttonDown3 ≠ 0 ∨ (AdcDidChange inp s).1.buttonDown2 ≠ 0))

/-- Lines 109-114: paint with the mode the held button selects. -/
def slidePaintPixel (sw4 : Bool) (s : State) : State :=
  if s.buttonDown3 ≠ 0 then SetCurrentPixel sw4 P_SET s
  else if s.buttonDown2 ≠ 0 then SetCurrentPixel sw4 P_RESET s
  else s

/-- Lines 116-132: the direction passed to `MoveCursor` by the gesture. -/
def slideDirection (s : State) : Direction :=
  if (s.adcNew : Int) - (s.adcPrevious : Int) > 0 then
    (if s.slideAxis = X then EAST else SOUTH)
  else
    (if s.slideAxis = X then WEST else NORTH)

/-- Lines 107-135: the slide-paint part of the loop body. -/
def slidePaint (cols rows : Nat) (inp : Inputs) (s : State) : Option State :=
  let r := AdcDidChange inp s
  if r.2 ≠ 0 ∧ (r.1.buttonDown3 ≠ 0 ∨ r.1.buttonDown2 ≠ 0) then
    let s1 := slidePaintPixel inp.sw4 r.1
    (MoveCursor cols rows (slideDirection s1) s1).map
      (fun s2 => { s2 with adcPrevious := s2.adcNew })
  else
    some r.1

/-- Lines 138-187: the `switch (buttonEvent)`. -/
def handleEvent (cols rows : Nat) (sw4 : Bool) (s : State) : Option State :=
  match s.buttonEvent with
  | BUTTON_EVENT_4DOWN => some { s with buttonPressTimer := 0 }
  | BUTTON_EVENT_4UP =>
      if s.buttonPressTimer < LONG_PRESS then MoveCursor cols rows NORTH s
      else some (SetCurrentPixel sw4 P_TOGGLE s)
  | BUTTON_EVENT_3DOWN => some { s with buttonPressTimer := 0, buttonDown3 := TRUE }
  | BUTTON_EVENT_3UP =>
      (if s.buttonPressTimer < LONG_PRESS then MoveCursor cols rows EAST s else some s).map
        (fun s1 => { s1 with buttonDown3 := FALSE })
  | BUTTON_EVENT_2DOWN => some { s with buttonPressTimer := 0, buttonDown2 := TRUE }
  | BUTTON_EVENT_2UP =>
      (if s.buttonPressTimer < LONG_PRESS then MoveCursor cols rows SOUTH s else some s).map
        (fun s1 => { s1 with buttonDown2 := FALSE })
  | BUTTON_EVENT_1DOWN => some { s with buttonPressTimer := 0 }
  | BUTTON_EVENT_1UP =>
      if s.buttonPressTimer < LONG_PRESS then MoveCursor cols rows WEST s
      else some { s with slideAxis := if s.slideAxis = X then Y else X }
  | BUTTON_EVENT_NONE => some s

/-- Lines 137-189: drain the pending button event. -/
def handleButtonEvent (cols rows : Nat) (sw4 : Bool) (s : State) : Option State :=
  if s.buttonEvent ≠ BUTTON_EVENT_NONE then
    (handleEvent cols rows sw4 s).map (fun s1 => { s1 with buttonEvent := BUTTON_EVENT_NONE })
  else
    some s

/-- One pass of the `while(1)` body (lines 105-189), the switch `SW4` holding
one value throughout the pass. -/
def loopIteration (cols rows : Nat) (inp : Inputs) (s : State) : Option State :=
  (slidePaint cols rows inp s).bind (handleButtonEvent cols rows inp.sw4)

/-- Run `n` executions of the 5 Hz tick handler. -/
def ticks5Hz : Nat → State → State
  | 0, s => s
  | n + 1, s => ticks5Hz n (TimerInterrupt5Hz s)

/-! ## Specification-side definitions -/

/-- The direction is one of the four enumerators of `Direction`. -/
def validDir (d : Direction) : Prop :=
  d = NORTH ∨ d = EAST ∨ d = SOUTH ∨ d = WEST

instance (d : Direction) : Decidable (validDir d) := by
  unfold validDir; infer_instance

/-- The clamped one-step reference of the spec, on integer coordinates:
NORTH `y-1` clamped at `0`, SOUTH `y+1` clamped at `rows-1`, WEST `x-1` clamped
at `0`, EAST `x+1` clamped at `cols-1`; the other coordinate is kept. -/
def clampedStep (cols rows : Nat) (d : Direction) (x y : Int) : Int × Int :=
  if d = NORTH then (x, max (y - 1) 0)
  else if d = SOUTH then (x, min (y + 1) ((rows : Int) - 1))
  else if d = WEST then (max (x - 1) 0, y)
  else if d = EAST then (min (x + 1) ((cols : Int) - 1), y)
  else (x, y)

/-- Button 4 pressed, held for `n` slow ticks, and released: the fast tick
deposits the down-event, the loop handles it, the 5 Hz handler runs `n` times,
the fast tick deposits the up-event and the loop handles it. -/
def holdButton4 (cols rows : Nat) (inp1 inp2 : Inputs) (n : Nat) (s : State) : Option State :=
  (loopIteration cols rows inp1 (TimerInterrupt100Hz BUTTON_EVENT_4DOWN s)).bind
    (fun s1 => loopIteration cols rows inp2
      (TimerInterrupt100Hz BUTTON_EVENT_4UP (ticks5Hz n s1)))

/-- Button 3 pressed and released at once: down-event and up-event are handled
in two consecutive passes of the loop, with no slow tick in between. -/
def tapButton3 (cols rows : Nat) (inp1 inp2 : Inputs) (s : State) : Option State :=
  (loopIteration cols rows inp1 (TimerInterrupt100Hz BUTTON_EVENT_3DOWN s)).bind
    (fun s1 => loopIteration cols rows inp2 (TimerInterrupt100Hz BUTTON_EVENT_3UP s1))

/-- Inputs of a pass in which the analog driver reports no change. -/
def quietInputs : Inputs :=
  { adcChanged := false, adcRead := 0, sw4 := false }

/-! ## Concrete states and inputs -/

/-- A state with the cursor at (3, 5), a pending event `ev` and the press timer at `t`. -/
def pendingState (ev : ButtonEventFlags) (t : Nat) : State :=
  { initState with buttonEvent := ev, buttonPressTimer := t, cursorX := 3, cursorY := 5 }

/-- The power-on state with the cursor moved to (0, 1). -/
def belowOrigin : State :=
  { initState with cursorY := 1 }

/-- A state with button 3 held, at power-on otherwise. -/
def button3Held : State :=
  { initState with buttonDown3 := TRUE }

/-- The potentiometer reading rises to 10. -/
def potAt10 : Inputs :=
  { adcChanged := true, adcRead := 10, sw4 := false }

/-- A state with button 2 held, at power-on otherwise. -/
def button2Held : State :=
  { initState with buttonDown2 := TRUE }

/-- The potentiometer reading is 12. -/
def potAt12 : Inputs :=
  { adcChanged := true, adcRead := 12, sw4 := false }

/-- The potentiometer reading is 20. -/
def potAt20 : Inputs :=
  { adcChanged := true, adcRead := 20, sw4 := false }

/-- The potentiometer reading is 0, reported as a change. -/
def potAt0 : Inputs :=
  { adcChanged := true, adcRead := 0, sw4 := false }

/-- The power-on state with the cursor moved to (1, 0). -/
def rightOfOrigin : State :=
  { initState with cursorX := 1 }

/-! ## Runs of the program -/

/-- One thing that happens to the program: a pass of the loop body with the
given driver inputs, a 100 Hz tick whose poll returns `ev`, or a 5 Hz tick. -/
inductive Step where
  | loop (inp : Inputs)
  | tick100 (ev : ButtonEventFlags)
  | tick5

/-- The effect of one step; `none` when `FATAL_ERROR()` is reached. -/
def step (cols rows : Nat) : Step → State → Option State
  | Step.loop inp, s => loopIteration cols rows inp s
  | Step.tick100 ev, s => some (TimerInterrupt100Hz ev s)
  | Step.tick5, s => some (TimerInterrupt5Hz s)

/-- The effect of a finite sequence of steps. -/
def run (cols rows : Nat) : List Step → State → Option State
  | [], s => some s
  | st :: rest, s => (step cols rows st s).bind (run cols rows rest)

/-- Button 3 is pressed and the potentiometer turned up to 20 and back to 10,
which paints (0,0) and (1,0) and brings the cursor back to (0,0); then button 4
is pressed, held for two slow ticks and released, the release still pending. -/
def slideThenHold4 : List Step :=
  [Step.tick100 BUTTON_EVENT_3DOWN, Step.loop quietInputs, Step.loop potAt20,
    Step.loop potAt10, Step.tick100 BUTTON_EVENT_4DOWN, Step.loop quietInputs,
    Step.tick5, Step.tick5, Step.tick100 BUTTON_EVENT_4UP]

/-- The button events the loop handles along a run, oldest first: a pass of the
loop handles the event pending when it starts. -/
def handledEvents (cols rows : Nat) : List Step → State → List ButtonEventFlags
  | [], _ => []
  | st :: rest, s =>
      (match st with
        | Step.loop _ => if s.buttonEvent ≠ BUTTON_EVENT_NONE then [s.buttonEvent] else []
        | _ => [])
      ++ (match step cols rows st s with
          | some s1 => handledEvents cols rows rest s1
          | none => [])

/-- The last event of one button (its `down` or its `up`) in a list of events. -/
def lastEventOf (down up : ButtonEventFlags) (evs : List ButtonEventFlags) :
    Option ButtonEventFlags :=
  (evs.filter (fun e => decide (e = down ∨ e = up))).getLast?

/-- Buffer and display agree on the cell `(x, y)`: the buffer cell is on exactly
when the display cell is white. -/
def mirrors (s : State) (x y : Nat) : Prop :=
  s.oled x y ≠ 0 ↔ s.display x y = OLED_COLOR_WHITE

/-! ## The export format in the spec's words -/

/-- The strings of a list written one after the other, `sep` between neighbours. -/
def sepBy (sep : String) : List String → String
  | [] => ""
  | [a] => a
  | a :: b :: rest => a ++ sep ++ sepBy sep (b :: rest)

/-- One brace-wrapped group of the matrix literal: 20 cells, each `1` or `0`,
separated by `, `; `cell i j` tells whether cell `j` of group `i` is `1`. -/
def matrixGroup (cell : Nat → Nat → Bool) (i : Nat) : String :=
  "\x7b " ++ sepBy ", " ((List.range 20).map (fun j => if cell i j then "1" else "0")) ++ "\x7d"

/-- The quoted, brace-wrapped matrix literal: 20 groups separated by `, `. -/
def matrixLiteral (cell : Nat → Nat → Bool) : String :=
  "\"\x7b " ++ sepBy ", " ((List.range 20).map (matrixGroup cell)) ++ " \x7d\""

/-! ## Cursor navigator -/

/-- The NORTH arm of `MoveCursor`. -/
theorem MoveCursor_NORTH (cols rows : Nat) (s : State) :
    MoveCursor cols rows NORTH s
      = some (if s.cursorY > 0 then { s with cursorY := (s.cursorY - 1) % 256 } else s) := rfl

/-- The EAST arm of `MoveCursor`. -/
theorem MoveCursor_EAST (cols rows : Nat) (s : State) :
    MoveCursor cols rows EAST s
      = some (if (s.cursorX : Int) < (cols : Int) - 1
          then { s with cursorX := (s.cursorX + 1) % 256 } else s) := rfl

/-- The SOUTH arm of `MoveCursor`. -/
theorem MoveCursor_SOUTH (cols rows : Nat) (s : State) :
    MoveCursor cols rows SOUTH s
      = some (if (s.cursorY : Int) < (rows : Int) - 1
          then { s with cursorY := (s.cursorY + 1) % 256 } else s) := rfl

/-- The WEST arm of `MoveCursor`. -/
theorem MoveCursor_WEST (cols rows : Nat) (s : State) :
    MoveCursor cols rows WEST s
      = some (if s.cursorX > 0 then { s with cursorX := (s.cursorX - 1) % 256 } else s) := rfl

/-- One valid `MoveCursor` call returns and keeps the cursor inside the grid. -/
theorem MoveCursor_inGrid (cols rows : Nat) (d : Direction) (s : State)
    (hd : validDir d) (h : inGrid cols rows s) :
    ∃ s', MoveCursor cols rows d s = some s' ∧ inGrid cols rows s' := by
  obtain ⟨hx, hy⟩ := h
  rcases hd with rfl | rfl | rfl | rfl
  · refine ⟨_, MoveCursor_NORTH cols rows s, ?_⟩
    split
    · exact ⟨hx, by show (s.cursorY - 1) % 256 < rows; omega⟩
    · exact ⟨hx, hy⟩
  · refine ⟨_, MoveCursor_EAST cols rows s, ?_⟩
    split
    · exact ⟨by show (s.cursorX + 1) % 256 < cols; omega, hy⟩
    · exact ⟨hx, hy⟩
  · refine ⟨_, MoveCursor_SOUTH cols rows s, ?_⟩
    split
    · exact ⟨hx, by show (s.cursorY + 1) % 256 < rows; omega⟩
    · exact ⟨hx, hy⟩
  · refine ⟨_, MoveCursor_WEST cols rows s, ?_⟩
    split
    · exact ⟨by show (s.cursorX - 1) % 256 < cols; omega, hy⟩
    · exact ⟨hx, hy⟩

/-- C1: from every cursor inside the grid, every finite sequence of
`MoveCursor` calls with directions among NORTH, EAST, SOUTH, WEST runs to its
end (no fatal error) and leaves the cursor inside the grid. -/
theorem moveSeq_inGrid (cols rows : Nat) (dirs : List Direction) (s : State)
    (hd : ∀ d ∈ dirs, validDir d) (h : inGrid cols rows s) :
    ∃ s', moveSeq cols rows dirs s = some s' ∧ inGrid cols rows s' := by
  induction dirs generalizing s with
  | nil => exact ⟨s, rfl, h⟩
  | cons d ds ih =>
    obtain ⟨s1, h1, g1⟩ :=
      MoveCursor_inGrid cols rows d s (hd d (List.mem_cons_self d ds)) h
    obtain ⟨s2, h2, g2⟩ := ih s1 (fun e he => hd e (List.mem_cons_of_mem d he)) g1
    exact ⟨s2, by simp [moveSeq, h1, h2], g2⟩

/-- C1 at a concrete input: a walk over the 128 x 32 display from power-on. -/
theorem moveSeq_inGrid_witness :
    (∀ d ∈ [NORTH, EAST, EAST, SOUTH, WEST, WEST, WEST], validDir d)
      ∧ inGrid 128 32 initState
      ∧ ∃ s', moveSeq 128 32 [NORTH, EAST, EAST, SOUTH, WEST, WEST, WEST] initState = some s'
          ∧ inGrid 128 32 s' :=
  ⟨by decide, by decide,
    moveSeq_inGrid 128 32 [NORTH, EAST, EAST, SOUTH, WEST, WEST, WEST] initState
      (by decide) (by decide)⟩

/-- A move that leaves the state unchanged may be repeated any number of times. -/
theorem moveSeq_replicate_fixed (cols rows : Nat) (d : Direction) (s : State)
    (h : MoveCursor cols rows d s = some s) (n : Nat) :
    moveSeq cols rows (List.replicate n d) s = some s := by
  induction n with
  | zero => rfl
  | succ k ih => simp [List.replicate_succ, moveSeq, h, ih]

/-- C2: for a cursor inside the grid (the grid being no larger than the 8-bit
cursor can address), `MoveCursor` returns the clamped one-step reference:
NORTH `max (y-1) 0`, SOUTH `min (y+1) (rows-1)`, WEST `max (x-1) 0`, EAST
`min (x+1) (cols-1)`, the other coordinate unchanged; and NORTH at `y = 0`,
SOUTH at `y = rows-1`, WEST at `x = 0`, EAST at `x = cols-1` leave the whole
state unchanged however often they are repeated. -/
theorem MoveCursor_clamped (cols rows : Nat) (d : Direction) (s : State)
    (hd : validDir d) (h : inGrid cols rows s) (hc : cols ≤ 256) (hr : rows ≤ 256) :
    (∃ s', MoveCursor cols rows d s = some s'
        ∧ ((s'.cursorX : Int), (s'.cursorY : Int))
            = clampedStep cols rows d (s.cursorX : Int) (s.cursorY : Int))
      ∧ (s.cursorY = 0 → ∀ n, moveSeq cols rows (List.replicate n NORTH) s = some s)
      ∧ ((s.cursorY : Int) = (rows : Int) - 1 →
          ∀ n, moveSeq cols rows (List.replicate n SOUTH) s = some s)
      ∧ (s.cursorX = 0 → ∀ n, moveSeq cols rows (List.replicate n WEST) s = some s)
      ∧ ((s.cursorX : Int) = (cols : Int) - 1 →
          ∀ n, moveSeq cols rows (List.replicate n EAST) s = some s) := by
  obtain ⟨hx, hy⟩ := h
  refine ⟨?_, ?_, ?_, ?_, ?_⟩
  · rcases hd with rfl | rfl | rfl | rfl
    · refine ⟨_, MoveCursor_NORTH cols rows s, ?_⟩
      simp only [clampedStep, if_true]
      split
      · have e : (s.cursorY - 1) % 256 = s.cursorY - 1 := by omega
        simp only [e, Prod.mk.injEq, true_and]
        omega
      · simp only [Prod.mk.injEq, true_and]
        omega
    · refine ⟨_, MoveCursor_EAST cols rows s, ?_⟩
      simp only [clampedStep, NORTH, EAST, SOUTH, WEST]
      simp only [show ¬ (1 = 0) by decide, show ¬ (1 = 2) by decide,
        show ¬ (1 = 3) by decide, if_false, if_true]
      split
      · have e : (s.cursorX + 1) % 256 = s.cursorX + 1 := by omega
        simp only [e, Prod.mk.injEq, and_true]
        omega
      · simp only [Prod.mk.injEq, and_true]
        omega
    · refine ⟨_, MoveCursor_SOUTH cols rows s, ?_⟩
      simp only [clampedStep, NORTH, EAST, SOUTH, WEST]
      simp only [show ¬ (2 = 0) by decide, if_false, if_true]
      split
      · have e : (s.cursorY + 1) % 256 = s.cursorY + 1 := by omega
        simp only [e, Prod.mk.injEq, true_and]
        omega
      · simp only [Prod.mk.injEq, true_and]
        omega
    · refine ⟨_, MoveCursor_WEST cols rows s, ?_⟩
      simp only [clampedStep, NORTH, EAST, SOUTH, WEST]
      simp only [show ¬ (3 = 0) by decide, show ¬ (3 = 2) by decide, if_false, if_true]
      split
      · have e : (s.cursorX - 1) % 256 = s.cursorX - 1 := by omega
        simp only [e, Prod.mk.injEq, and_true]
        omega
      · simp only [Prod.mk.injEq, and_true]
        omega
  · intro h0 n
    refine moveSeq_replicate_fixed cols rows NORTH s ?_ n
    rw [MoveCursor_NORTH, if_neg (by omega)]
  · intro h0 n
    refine moveSeq_replicate_fixed cols rows SOUTH s ?_ n
    rw [MoveCursor_SOUTH, if_neg (by omega)]
  · intro h0 n
    refine moveSeq_replicate_fixed cols rows WEST s ?_ n
    rw [MoveCursor_WEST, if_neg (by omega)]
  · intro h0 n
    refine moveSeq_replicate_fixed cols rows EAST s ?_ n
    rw [MoveCursor_EAST, if_neg (by omega)]

/-- C2 at a concrete input: EAST from the origin of the 128 x 32 display. -/
theorem MoveCursor_clamped_witness :
    validDir EAST ∧ inGrid 128 32 initState ∧ 128 ≤ 256 ∧ 32 ≤ 256
      ∧ (∃ s', MoveCursor 128 32 EAST initState = some s'
          ∧ ((s'.cursorX : Int), (s'.cursorY : Int))
              = clampedStep 128 32 EAST (initState.cursorX : Int) (initState.cursorY : Int))
      ∧ (∀ n, moveSeq 128 32 (List.replicate n NORTH) initState = some initState) :=
  have h := MoveCursor_clamped 128 32 EAST initState (by decide) (by decide)
    (by decide) (by decide)
  ⟨by decide, by decide, by decide, by decide, h.1, h.2.1 rfl⟩

/-! ## Pixel painter -/

/-- The buffer after `SetCurrentPixel`, cell by cell. -/
theorem SetCurrentPixel_oled (sw4 : Bool) (mode : Mode) (s : State) :
    (SetCurrentPixel sw4 mode s).oled
      = setCell s.oled s.cursorX s.cursorY
          (if mode = P_SET then TRUE
            else if mode = P_RESET then TRUE
            else if s.oled s.cursorX s.cursorY = 0 then TRUE else FALSE) := by
  cases mode
  · simp [SetCurrentPixel]
  · simp [SetCurrentPixel]
  · simp only [SetCurrentPixel]
    by_cases h : s.oled s.cursorX s.cursorY = 0 <;> simp [h]

/-- `SetCurrentPixel` does not move the cursor. -/
theorem SetCurrentPixel_cursor (sw4 : Bool) (mode : Mode) (s : State) :
    (SetCurrentPixel sw4 mode s).cursorX = s.cursorX
      ∧ (SetCurrentPixel sw4 mode s).cursorY = s.cursorY := ⟨rfl, rfl⟩

/-- Reading back the cell just assigned. -/
theorem setCell_same {α : Type} (g : Nat → Nat → α) (x y : Nat) (v : α) :
    setCell g x y v x y = v := by
  simp [setCell]

/-- `P_SET` stores true and `P_TOGGLE` stores the negation of the old value. -/
theorem SetCurrentPixel_set_toggle (sw4 : Bool) (s : State) :
    (SetCurrentPixel sw4 P_SET s).oled s.cursorX s.cursorY = TRUE
      ∧ (SetCurrentPixel sw4 P_TOGGLE s).oled s.cursorX s.cursorY
          = (if s.oled s.cursorX s.cursorY = 0 then TRUE else FALSE) := by
  constructor <;> rw [SetCurrentPixel_oled, setCell_same] <;> simp

/-- C3 (the code at the failing mode): for every state, `P_RESET` leaves the
buffer cell at the cursor holding `TRUE` (line 253), not false, while the colour
sent to the display for that cell is black. -/
theorem SetCurrentPixel_reset_stores_TRUE (sw4 : Bool) (s : State) :
    (SetCurrentPixel sw4 P_RESET s).oled s.cursorX s.cursorY = TRUE
      ∧ (SetCurrentPixel sw4 P_RESET s).oled s.cursorX s.cursorY ≠ FALSE
      ∧ (SetCurrentPixel sw4 P_RESET s).display s.cursorX s.cursorY = OLED_COLOR_BLACK := by
  refine ⟨?_, ?_, ?_⟩
  · rw [SetCurrentPixel_oled, setCell_same]; simp
  · rw [SetCurrentPixel_oled, setCell_same]; simp [TRUE, FALSE]
  · simp [SetCurrentPixel, setCell]

/-- C4: on a buffer holding only 0/1 values, `SetCurrentPixel(P_TOGGLE)` twice
with no cursor move in between gives back the whole pixel buffer, and the cell
at the cursor in particular. -/
theorem toggle_twice_restores (b1 b2 : Bool) (s : State)
    (h01 : ∀ i j, s.oled i j = 0 ∨ s.oled i j = 1) :
    (SetCurrentPixel b2 P_TOGGLE (SetCurrentPixel b1 P_TOGGLE s)).oled = s.oled
      ∧ (SetCurrentPixel b2 P_TOGGLE (SetCurrentPixel b1 P_TOGGLE s)).oled s.cursorX s.cursorY
          = s.oled s.cursorX s.cursorY := by
  have key : (SetCurrentPixel b2 P_TOGGLE (SetCurrentPixel b1 P_TOGGLE s)).oled = s.oled := by
    rw [SetCurrentPixel_oled, SetCurrentPixel_oled]
    simp only [(SetCurrentPixel_cursor b1 P_TOGGLE s).1, (SetCurrentPixel_cursor b1 P_TOGGLE s).2,
      setCell_same]
    funext i j
    rcases h01 s.cursorX s.cursorY with h | h
    · by_cases hij : i = s.cursorX ∧ j = s.cursorY
      · obtain ⟨rfl, rfl⟩ := hij
        simp [setCell, h, TRUE, FALSE]
      · simp [setCell, hij]
    · by_cases hij : i = s.cursorX ∧ j = s.cursorY
      · obtain ⟨rfl, rfl⟩ := hij
        simp [setCell, h, TRUE, FALSE]
      · simp [setCell, hij]
  exact ⟨key, by rw [key]⟩

/-- C4 at a concrete input: the blank buffer at power-on. -/
theorem toggle_twice_restores_witness :
    (∀ i j, initState.oled i j = 0 ∨ initState.oled i j = 1)
      ∧ (SetCurrentPixel true P_TOGGLE (SetCurrentPixel false P_TOGGLE initState)).oled
          = initState.oled :=
  ⟨fun _ _ => Or.inl rfl,
    (toggle_twice_restores false true initState (fun _ _ => Or.inl rfl)).1⟩

/-- C5 (the code at the failing sequence): for every state, `P_SET` followed by
`P_RESET` at the same cursor leaves the buffer cell at the cursor holding
`TRUE`, not false. -/
theorem set_then_reset_stores_TRUE (b1 b2 : Bool) (s : State) :
    (SetCurrentPixel b2 P_RESET (SetCurrentPixel b1 P_SET s)).oled s.cursorX s.cursorY = TRUE
      ∧ (SetCurrentPixel b2 P_RESET (SetCurrentPixel b1 P_SET s)).oled s.cursorX s.cursorY
          ≠ FALSE := by
  have key : (SetCurrentPixel b2 P_RESET (SetCurrentPixel b1 P_SET s)).oled
      s.cursorX s.cursorY = TRUE := by
    rw [SetCurrentPixel_oled]
    simp only [(SetCurrentPixel_cursor b1 P_SET s).1, (SetCurrentPixel_cursor b1 P_SET s).2,
      setCell_same]
    simp
  exact ⟨key, by rw [key]; simp [TRUE, FALSE]⟩

/-! ## Gesture interpreter: discrete button events -/

/-- `AdcDidChange` writes nothing but `adc[NEW]` and its own `previousAdc`. -/
theorem AdcDidChange_frame (inp : Inputs) (s : State) :
    ∃ n1 n2, (AdcDidChange inp s).1 = { s with adcNew := n1, previousAdc := n2 } := by
  simp only [AdcDidChange]
  split
  · split
    · exact ⟨_, _, rfl⟩
    · exact ⟨s.adcNew, s.previousAdc, rfl⟩
  · exact ⟨s.adcNew, s.previousAdc, rfl⟩

/-- When the gesture does not fire, the slide-paint part is `AdcDidChange` alone. -/
theorem slidePaint_idle (cols rows : Nat) (inp : Inputs) (s : State)
    (hg : gestureFires inp s = false) :
    slidePaint cols rows inp s = some (AdcDidChange inp s).1 := by
  unfold gestureFires at hg
  have hg1 := of_decide_eq_false hg
  simp only [slidePaint]
  rw [if_neg hg1]

/-- When the gesture does not fire, a pass of the loop is the event handler run
on a state that differs from the start only in `adc[NEW]` and `previousAdc`. -/
theorem loopIteration_idle (cols rows : Nat) (inp : Inputs) (s : State)
    (hg : gestureFires inp s = false) :
    ∃ n1 n2, loopIteration cols rows inp s
      = handleButtonEvent cols rows inp.sw4 { s with adcNew := n1, previousAdc := n2 } := by
  obtain ⟨n1, n2, ha⟩ := AdcDidChange_frame inp s
  refine ⟨n1, n2, ?_⟩
  rw [loopIteration, slidePaint_idle cols rows inp s hg, ha]
  rfl

/-- C6: with `buttonPressTimer < LONG_PRESS` and no slide gesture firing, the
pass of the loop that handles the up-event of button 4, 3, 2 or 1 returns, its
cursor is the one `MoveCursor` gives for NORTH, EAST, SOUTH or WEST
respectively, and the pixel buffer, the slide axis, the display and the printed
text are unchanged (no paint, no axis flip). -/
theorem shortPress_up_moves (cols rows : Nat) (inp : Inputs) (s : State) (d : Direction)
    (ht : s.buttonPressTimer < LONG_PRESS) (hg : gestureFires inp s = false)
    (hev : (s.buttonEvent = BUTTON_EVENT_4UP ∧ d = NORTH)
      ∨ (s.buttonEvent = BUTTON_EVENT_3UP ∧ d = EAST)
      ∨ (s.buttonEvent = BUTTON_EVENT_2UP ∧ d = SOUTH)
      ∨ (s.buttonEvent = BUTTON_EVENT_1UP ∧ d = WEST)) :
    ∃ s' m, loopIteration cols rows inp s = some s'
      ∧ MoveCursor cols rows d s = some m
      ∧ s'.cursorX = m.cursorX ∧ s'.cursorY = m.cursorY
      ∧ s'.oled = s.oled ∧ s'.slideAxis = s.slideAxis
      ∧ s'.display = s.display ∧ s'.screen = s.screen ∧ s'.stdout = s.stdout := by
  obtain ⟨n1, n2, hl⟩ := loopIteration_idle cols rows inp s hg
  rw [hl]
  rcases hev with ⟨he, rfl⟩ | ⟨he, rfl⟩ | ⟨he, rfl⟩ | ⟨he, rfl⟩
  · simp only [handleButtonEvent, handleEvent, he, ht, MoveCursor_NORTH]
    refine ⟨_, _, by simp; rfl, rfl, ?_⟩
    split <;> simp
  · simp only [handleButtonEvent, handleEvent, he, ht, MoveCursor_EAST]
    refine ⟨_, _, by simp; rfl, rfl, ?_⟩
    split <;> simp
  · simp only [handleButtonEvent, handleEvent, he, ht, MoveCursor_SOUTH]
    refine ⟨_, _, by simp; rfl, rfl, ?_⟩
    split <;> simp
  · simp only [handleButtonEvent, handleEvent, he, ht, MoveCursor_WEST]
    refine ⟨_, _, by simp; rfl, rfl, ?_⟩
    split <;> simp

/-- C6 at a concrete input: a short press of button 4 with the cursor at (3, 5). -/
theorem shortPress_up_moves_witness :
    (pendingState BUTTON_EVENT_4UP 1).buttonPressTimer < LONG_PRESS
      ∧ gestureFires quietInputs (pendingState BUTTON_EVENT_4UP 1) = false
      ∧ ∃ s' m, loopIteration 128 32 quietInputs (pendingState BUTTON_EVENT_4UP 1) = some s'
          ∧ MoveCursor 128 32 NORTH (pendingState BUTTON_EVENT_4UP 1) = some m
          ∧ s'.cursorX = m.cursorX ∧ s'.cursorY = m.cursorY
          ∧ s'.oled = (pendingState BUTTON_EVENT_4UP 1).oled
          ∧ s'.slideAxis = (pendingState BUTTON_EVENT_4UP 1).slideAxis
          ∧ s'.display = (pendingState BUTTON_EVENT_4UP 1).display
          ∧ s'.screen = (pendingState BUTTON_EVENT_4UP 1).screen
          ∧ s'.stdout = (pendingState BUTTON_EVENT_4UP 1).stdout :=
  ⟨by decide, rfl,
    shortPress_up_moves 128 32 quietInputs (pendingState BUTTON_EVENT_4UP 1) NORTH
      (by decide) rfl (Or.inl ⟨rfl, rfl⟩)⟩

/-- C7: with `buttonPressTimer >= LONG_PRESS` and no slide gesture firing, the
pass of the loop that handles `BUTTON_EVENT_4UP` returns with the pixel at the
cursor toggled (every other cell, the cursor and the slide axis unchanged), and
the pass that handles `BUTTON_EVENT_1UP` returns with the slide axis flipped
(X to Y, Y to X) and the cursor and the pixel buffer unchanged. -/
theorem longPress_up_acts (cols rows : Nat) (inp : Inputs) (s : State)
    (ht : LONG_PRESS ≤ s.buttonPressTimer) (hg : gestureFires inp s = false) :
    (s.buttonEvent = BUTTON_EVENT_4UP →
        ∃ s', loopIteration cols rows inp s = some s'
          ∧ s'.oled = (SetCurrentPixel inp.sw4 P_TOGGLE s).oled
          ∧ s'.oled s.cursorX s.cursorY = (if s.oled s.cursorX s.cursorY = 0 then TRUE else FALSE)
          ∧ (∀ i j, ¬ (i = s.cursorX ∧ j = s.cursorY) → s'.oled i j = s.oled i j)
          ∧ s'.cursorX = s.cursorX ∧ s'.cursorY = s.cursorY ∧ s'.slideAxis = s.slideAxis)
      ∧ (s.buttonEvent = BUTTON_EVENT_1UP →
        ∃ s', loopIteration cols rows inp s = some s'
          ∧ s'.slideAxis = (if s.slideAxis = X then Y else X)
          ∧ (s.slideAxis = X → s'.slideAxis = Y) ∧ (s.slideAxis = Y → s'.slideAxis = X)
          ∧ s'.cursorX = s.cursorX ∧ s'.cursorY = s.cursorY ∧ s'.oled = s.oled) := by
  obtain ⟨n1, n2, hl⟩ := loopIteration_idle cols rows inp s hg
  rw [hl]
  have ht' : ¬ s.buttonPressTimer < LONG_PRESS := Nat.not_lt.mpr ht
  constructor
  · intro he
    simp only [handleButtonEvent, handleEvent, he, ht']
    refine ⟨_, rfl, ?_, ?_, ?_, ?_, ?_, ?_⟩
    · simp only [SetCurrentPixel_oled]
    · simp only [SetCurrentPixel_oled, setCell_same]
      simp
    · intro i j hij
      simp only [SetCurrentPixel_oled]
      simp [setCell, hij]
    · rfl
    · rfl
    · rfl
  · intro he
    simp only [handleButtonEvent, handleEvent, he, ht']
    refine ⟨_, rfl, ?_, ?_, ?_, ?_, ?_, ?_⟩
    · rfl
    · intro hx
      simp [hx]
    · intro hy
      simp [hy, X, Y]
    · rfl
    · rfl
    · rfl

/-- C7 at a concrete input: a long press of button 4 with the cursor at (3, 5). -/
theorem longPress_up_acts_witness :
    LONG_PRESS ≤ (pendingState BUTTON_EVENT_4UP 2).buttonPressTimer
      ∧ gestureFires quietInputs (pendingState BUTTON_EVENT_4UP 2) = false
      ∧ ∃ s', loopIteration 128 32 quietInputs (pendingState BUTTON_EVENT_4UP 2) = some s'
          ∧ s'.oled 3 5 = TRUE ∧ s'.cursorX = 3 ∧ s'.cursorY = 5 ∧ s'.slideAxis = X := by
  refine ⟨by decide, rfl, ?_⟩
  obtain ⟨s', h1, _, h3, _, h5, h6, h7⟩ :=
    (longPress_up_acts 128 32 quietInputs (pendingState BUTTON_EVENT_4UP 2)
      (by decide) rfl).1 rfl
  exact ⟨s', h1, h3, h5, h6, h7⟩

/-! ## Long-press timing -/

/-- The 5 Hz handler touches the press timer only; from an 8-bit value, `n`
runs leave `(timer + n) % 256`. -/
theorem ticks5Hz_timer (n : Nat) (s : State) :
    ∃ t, ticks5Hz n s = { s with buttonPressTimer := t }
      ∧ (s.buttonPressTimer < 256 → t = (s.buttonPressTimer + n) % 256) := by
  induction n generalizing s with
  | zero => exact ⟨s.buttonPressTimer, rfl, fun h => by simp [Nat.mod_eq_of_lt h]⟩
  | succ k ih =>
    obtain ⟨t, ht, hv⟩ := ih (TimerInterrupt5Hz s)
    refine ⟨t, by rw [ticks5Hz, ht]; rfl, fun _ => ?_⟩
    have h1 := hv (Nat.mod_lt _ (by decide))
    simp only [TimerInterrupt5Hz] at h1
    omega

/-- What a hold of button 4 over `n` slow ticks does, by the value `n % 256` the
8-bit timer holds at the release: at `LONG_PRESS` or above the pixel at the
cursor is toggled and the cursor stays; below it the cursor moves north and the
buffer stays. -/
theorem holdButton4_by_timer (cols rows : Nat) (inp1 inp2 : Inputs) (n : Nat) (s : State)
    (h1 : gestureFires inp1 (TimerInterrupt100Hz BUTTON_EVENT_4DOWN s) = false)
    (h2 : ∀ s1, loopIteration cols rows inp1 (TimerInterrupt100Hz BUTTON_EVENT_4DOWN s) = some s1 →
      gestureFires inp2 (TimerInterrupt100Hz BUTTON_EVENT_4UP (ticks5Hz n s1)) = false) :
    (LONG_PRESS ≤ n % 256 →
        ∃ s', holdButton4 cols rows inp1 inp2 n s = some s'
          ∧ s'.oled = (SetCurrentPixel inp2.sw4 P_TOGGLE s).oled
          ∧ s'.cursorX = s.cursorX ∧ s'.cursorY = s.cursorY)
      ∧ (n % 256 < LONG_PRESS →
        ∃ s' m, holdButton4 cols rows inp1 inp2 n s = some s'
          ∧ MoveCursor cols rows NORTH s = some m
          ∧ s'.cursorX = m.cursorX ∧ s'.cursorY = m.cursorY ∧ s'.oled = s.oled) := by
  obtain ⟨n1, n2, hl⟩ := loopIteration_idle cols rows inp1
    (TimerInterrupt100Hz BUTTON_EVENT_4DOWN s) h1
  have e1 : loopIteration cols rows inp1 (TimerInterrupt100Hz BUTTON_EVENT_4DOWN s)
      = some { s with buttonEvent := BUTTON_EVENT_NONE, buttonPressTimer := 0,
                      adcNew := n1, previousAdc := n2 } := by
    rw [hl]; rfl
  have g2 := h2 _ e1
  obtain ⟨t, ht, hv⟩ := ticks5Hz_timer n
    { s with buttonEvent := BUTTON_EVENT_NONE, buttonPressTimer := 0,
             adcNew := n1, previousAdc := n2 }
  have ht0 : t = n % 256 := by
    have h := hv (show (0 : Nat) < 256 by decide)
    simpa using h
  subst ht0
  rw [ht] at g2
  obtain ⟨m1, m2, hl2⟩ := loopIteration_idle cols rows inp2 _ g2
  rw [holdButton4, e1, Option.some_bind, ht, hl2]
  constructor
  · intro hlong
    have hlong' : ¬ n % 256 < LONG_PRESS := Nat.not_lt.mpr hlong
    simp only [handleButtonEvent, handleEvent, TimerInterrupt100Hz, hlong']
    refine ⟨_, rfl, ?_, ?_, ?_⟩
    · simp only [SetCurrentPixel_oled]
    · rfl
    · rfl
  · intro hshort
    simp only [handleButtonEvent, handleEvent, TimerInterrupt100Hz, hshort, MoveCursor_NORTH]
    refine ⟨_, _, rfl, rfl, ?_⟩
    split <;> simp

/-- C8 (the code at the failing input): button 4 held for 256 slow ticks from
the cursor (0, 1). The 8-bit timer has wrapped to 0 at the release, so the
release is taken for a short press: the cursor moves north to (0, 0) and the
pixel (0, 1) is left as it was, not toggled. -/
theorem holdButton4_256_ticks_moves :
    ∃ s', holdButton4 128 32 quietInputs quietInputs 256 belowOrigin = some s'
      ∧ s'.buttonPressTimer = 0
      ∧ s'.cursorX = 0 ∧ s'.cursorY = 0 ∧ belowOrigin.cursorY = 1
      ∧ s'.oled 0 1 = belowOrigin.oled 0 1 ∧ s'.oled = belowOrigin.oled := by
  have e1 : loopIteration 128 32 quietInputs (TimerInterrupt100Hz BUTTON_EVENT_4DOWN belowOrigin)
      = some { belowOrigin with buttonEvent := BUTTON_EVENT_NONE, buttonPressTimer := 0 } := rfl
  obtain ⟨t, ht, hv⟩ := ticks5Hz_timer 256
    { belowOrigin with buttonEvent := BUTTON_EVENT_NONE, buttonPressTimer := 0 }
  have ht0 : t = 0 := hv (by decide)
  subst ht0
  rw [holdButton4, e1, Option.some_bind, ht]
  exact ⟨_, rfl, rfl, rfl, rfl, rfl, rfl, rfl⟩

/-! ## Button 3 tapped -/

/-- No accepted analog change means no slide gesture. -/
theorem gestureFires_of_not_accepted (inp : Inputs) (s : State)
    (h : (AdcDidChange inp s).2 = FALSE) : gestureFires inp s = false := by
  unfold gestureFires
  apply decide_eq_false
  rintro ⟨h1, _⟩
  exact h1 h

/-- C9: from an in-grid cursor (on a grid the 8-bit cursor can address),
handling `BUTTON_EVENT_3DOWN` and then `BUTTON_EVENT_3UP` in two consecutive
passes of the loop, with no slow tick and no accepted analog change, leaves the
whole pixel buffer unchanged and moves the cursor one step east, clamped at the
east edge; from (0,0) on a grid at least 2 columns wide the cursor ends at (1,0)
and pixel (0,0) is unaffected. -/
theorem tapButton3_moves_east (cols rows : Nat) (inp1 inp2 : Inputs) (s : State)
    (hin : inGrid cols rows s) (hc : cols ≤ 256)
    (h1 : (AdcDidChange inp1 (TimerInterrupt100Hz BUTTON_EVENT_3DOWN s)).2 = FALSE)
    (h2 : ∀ s1, loopIteration cols rows inp1 (TimerInterrupt100Hz BUTTON_EVENT_3DOWN s) = some s1 →
      (AdcDidChange inp2 (TimerInterrupt100Hz BUTTON_EVENT_3UP s1)).2 = FALSE) :
    ∃ s2, tapButton3 cols rows inp1 inp2 s = some s2
      ∧ s2.oled = s.oled
      ∧ s2.cursorX = min (s.cursorX + 1) (cols - 1) ∧ s2.cursorY = s.cursorY
      ∧ (s.cursorX = 0 → s.cursorY = 0 → 2 ≤ cols →
          s2.cursorX = 1 ∧ s2.cursorY = 0 ∧ s2.oled 0 0 = s.oled 0 0) := by
  obtain ⟨hx, hy⟩ := hin
  obtain ⟨n1, n2, hl⟩ := loopIteration_idle cols rows inp1
    (TimerInterrupt100Hz BUTTON_EVENT_3DOWN s) (gestureFires_of_not_accepted _ _ h1)
  have e1 : loopIteration cols rows inp1 (TimerInterrupt100Hz BUTTON_EVENT_3DOWN s)
      = some { s with buttonEvent := BUTTON_EVENT_NONE, buttonPressTimer := 0,
                      buttonDown3 := TRUE, adcNew := n1, previousAdc := n2 } := by
    rw [hl]; rfl
  obtain ⟨m1, m2, hl2⟩ := loopIteration_idle cols rows inp2 _
    (gestureFires_of_not_accepted _ _ (h2 _ e1))
  rw [tapButton3, e1, Option.some_bind, hl2]
  simp only [handleButtonEvent, handleEvent, TimerInterrupt100Hz, MoveCursor_EAST,
    show (0 : Nat) < LONG_PRESS by decide]
  by_cases hE : (s.cursorX : Int) < (cols : Int) - 1
  · simp only [if_pos hE]
    refine ⟨_, rfl, rfl, ?_, rfl, ?_⟩
    · show (s.cursorX + 1) % 256 = min (s.cursorX + 1) (cols - 1)
      omega
    · intro h0 _ _
      refine ⟨?_, by assumption, rfl⟩
      show (s.cursorX + 1) % 256 = 1
      omega
  · simp only [if_neg hE]
    refine ⟨_, rfl, rfl, ?_, rfl, ?_⟩
    · show s.cursorX = min (s.cursorX + 1) (cols - 1)
      omega
    · intro h0 _ _
      omega

/-- C9 at a concrete input: the tap at power-on on the 128 x 32 display. -/
theorem tapButton3_moves_east_witness :
    inGrid 128 32 initState ∧ 128 ≤ 256
      ∧ (AdcDidChange quietInputs (TimerInterrupt100Hz BUTTON_EVENT_3DOWN initState)).2 = FALSE
      ∧ ∃ s2, tapButton3 128 32 quietInputs quietInputs initState = some s2
          ∧ s2.oled = initState.oled ∧ s2.cursorX = 1 ∧ s2.cursorY = 0 := by
  refine ⟨by decide, by decide, rfl, ?_⟩
  obtain ⟨s2, e, ho, _, _, h⟩ :=
    tapButton3_moves_east 128 32 quietInputs quietInputs initState (by decide) (by decide) rfl
      (fun _ _ => rfl)
  exact ⟨s2, e, ho, (h rfl rfl (by decide)).1, (h rfl rfl (by decide)).2.1⟩

/-! ## Gesture interpreter: slide paint -/

/-- When `AdcDidChange` returns true it has stored the new reading in
`adc[NEW]` and in `previousAdc`. -/
theorem AdcDidChange_accepted (inp : Inputs) (s : State) (h : (AdcDidChange inp s).2 ≠ 0) :
    (AdcDidChange inp s).1
      = { s with adcNew := inp.adcRead % 65536, previousAdc := inp.adcRead % 65536 } := by
  by_cases hc : inp.adcChanged = true
  · by_cases hd : (s.previousAdc : Int) - ((inp.adcRead % 65536 : Nat) : Int) > ADC_CHANGED_BUFFER
        ∨ (s.previousAdc : Int) - ((inp.adcRead % 65536 : Nat) : Int) < -ADC_CHANGED_BUFFER
    · simp only [AdcDidChange, if_pos hc, if_pos hd]
    · simp only [AdcDidChange, if_pos hc, if_neg hd] at h
      exact absurd rfl h
  · simp only [AdcDidChange, if_neg hc] at h
    exact absurd rfl h

/-- The cursor `MoveCursor` produces depends on the cursor alone, and
`MoveCursor` changes nothing but the cursor. -/
theorem MoveCursor_cursor_only (cols rows : Nat) (d : Direction) (p s : State)
    (hd : validDir d) (hx : p.cursorX = s.cursorX) (hy : p.cursorY = s.cursorY) :
    ∃ m, MoveCursor cols rows d s = some m
      ∧ MoveCursor cols rows d p = some { p with cursorX := m.cursorX, cursorY := m.cursorY } := by
  rcases hd with rfl | rfl | rfl | rfl
  · refine ⟨_, MoveCursor_NORTH cols rows s, ?_⟩
    rw [MoveCursor_NORTH, hy]
    split <;> simp [← hx, ← hy]
  · refine ⟨_, MoveCursor_EAST cols rows s, ?_⟩
    rw [MoveCursor_EAST, hx]
    split <;> simp [← hx, ← hy]
  · refine ⟨_, MoveCursor_SOUTH cols rows s, ?_⟩
    rw [MoveCursor_SOUTH, hy]
    split <;> simp [← hx, ← hy]
  · refine ⟨_, MoveCursor_WEST cols rows s, ?_⟩
    rw [MoveCursor_WEST, hx]
    split <;> simp [← hx, ← hy]

/-- The gesture only ever asks for one of the four directions. -/
theorem slideDirection_valid (s : State) : validDir (slideDirection s) := by
  unfold slideDirection validDir
  split <;> split <;> simp

/-- C10 (as amended): when button 3 is held (button 2 held or not) and the
slide-paint gesture fires, the slide-paint part of the loop body (lines 107-135)
returns; its paint is the `P_SET` paint, not the `P_RESET` one: buffer, display,
pushed frame and printed text are those of `SetCurrentPixel(P_SET)`, so the
buffer cell at the cursor position before the move is on and its display cell
white; the cursor is then the one `MoveCursor` gives from the old cursor for
EAST (axis X, new sample minus stored previous sample positive), WEST (axis X,
negative or zero), SOUTH (axis Y, positive) or NORTH (axis Y, negative or zero);
and `adc[PREVIOUS]` holds the new sample.  The rest of the pass drains the
pending event from that state; with no event pending it is the result of the
whole pass. -/
theorem slideGesture_button3 (cols rows : Nat) (inp : Inputs) (s : State)
    (h3 : s.buttonDown3 ≠ 0) (hg : gestureFires inp s = true) :
    ∃ s', slidePaint cols rows inp s = some s'
      ∧ s'.oled = (SetCurrentPixel inp.sw4 P_SET s).oled
      ∧ s'.display = (SetCurrentPixel inp.sw4 P_SET s).display
      ∧ s'.screen = (SetCurrentPixel inp.sw4 P_SET s).screen
      ∧ s'.stdout = (SetCurrentPixel inp.sw4 P_SET s).stdout
      ∧ s'.oled s.cursorX s.cursorY = TRUE
      ∧ s'.display s.cursorX s.cursorY = OLED_COLOR_WHITE
      ∧ (s.slideAxis = X → ((inp.adcRead % 65536 : Nat) : Int) - (s.adcPrevious : Int) > 0 →
          ∃ m, MoveCursor cols rows EAST s = some m
            ∧ s'.cursorX = m.cursorX ∧ s'.cursorY = m.cursorY)
      ∧ (s.slideAxis = X → ((inp.adcRead % 65536 : Nat) : Int) - (s.adcPrevious : Int) ≤ 0 →
          ∃ m, MoveCursor cols rows WEST s = some m
            ∧ s'.cursorX = m.cursorX ∧ s'.cursorY = m.cursorY)
      ∧ (s.slideAxis = Y → ((inp.adcRead % 65536 : Nat) : Int) - (s.adcPrevious : Int) > 0 →
          ∃ m, MoveCursor cols rows SOUTH s = some m
            ∧ s'.cursorX = m.cursorX ∧ s'.cursorY = m.cursorY)
      ∧ (s.slideAxis = Y → ((inp.adcRead % 65536 : Nat) : Int) - (s.adcPrevious : Int) ≤ 0 →
          ∃ m, MoveCursor cols rows NORTH s = some m
            ∧ s'.cursorX = m.cursorX ∧ s'.cursorY = m.cursorY)
      ∧ s'.adcPrevious = inp.adcRead % 65536
      ∧ loopIteration cols rows inp s = handleButtonEvent cols rows inp.sw4 s'
      ∧ (s.buttonEvent = BUTTON_EVENT_NONE → loopIteration cols rows inp s = some s') := by
  have hg1 : (AdcDidChange inp s).2 ≠ 0
      ∧ ((AdcDidChange inp s).1.buttonDown3 ≠ 0 ∨ (AdcDidChange inp s).1.buttonDown2 ≠ 0) :=
    of_decide_eq_true hg
  have ha := AdcDidChange_accepted inp s hg1.1
  obtain ⟨m, hm, hq⟩ := MoveCursor_cursor_only cols rows
    (slideDirection (SetCurrentPixel inp.sw4 P_SET (AdcDidChange inp s).1))
    (SetCurrentPixel inp.sw4 P_SET (AdcDidChange inp s).1) s
    (slideDirection_valid _) (by rw [ha]; rfl) (by rw [ha]; rfl)
  have hs : slidePaint cols rows inp s
      = some { SetCurrentPixel inp.sw4 P_SET (AdcDidChange inp s).1 with
                cursorX := m.cursorX, cursorY := m.cursorY,
                adcPrevious := (AdcDidChange inp s).1.adcNew } := by
    simp only [slidePaint]
    rw [if_pos hg1, slidePaintPixel, if_pos (by rw [ha]; exact h3), hq]
    rfl
  have hdir : slideDirection (SetCurrentPixel inp.sw4 P_SET (AdcDidChange inp s).1)
      = if ((inp.adcRead % 65536 : Nat) : Int) - (s.adcPrevious : Int) > 0
          then (if s.slideAxis = X then EAST else SOUTH)
          else (if s.slideAxis = X then WEST else NORTH) := by
    rw [ha]; rfl
  rw [hdir] at hm
  refine ⟨_, hs, ?_, ?_, ?_, ?_, ?_, ?_, ?_, ?_, ?_, ?_, ?_, ?_, ?_⟩
  · rw [ha]; rfl
  · rw [ha]; rfl
  · rw [ha]; rfl
  · rw [ha]; rfl
  · have h := (SetCurrentPixel_set_toggle inp.sw4 (AdcDidChange inp s).1).1
    rw [ha] at h
    rw [ha]
    exact h
  · rw [ha]
    simp [SetCurrentPixel, setCell]
  · intro hX hpos
    rw [if_pos hpos, if_pos hX] at hm
    exact ⟨m, hm, rfl, rfl⟩
  · intro hX hneg
    rw [if_neg (by omega), if_pos hX] at hm
    exact ⟨m, hm, rfl, rfl⟩
  · intro hY hpos
    rw [if_pos hpos, if_neg (by rw [hY]; decide)] at hm
    exact ⟨m, hm, rfl, rfl⟩
  · intro hY hneg
    rw [if_neg (by omega), if_neg (by rw [hY]; decide)] at hm
    exact ⟨m, hm, rfl, rfl⟩
  · rw [ha]
  · rw [loopIteration, hs, Option.some_bind]
  · intro hnone
    rw [loopIteration, hs, Option.some_bind, handleButtonEvent, if_neg]
    rw [ha]
    exact fun h => h hnone

/-- C10 at a concrete input: button 3 held at the origin, axis X, the reading
rising from 0 to 10: pixel (0,0) is set, its display cell is white and the
cursor ends at (1,0). -/
theorem slideGesture_button3_witness :
    button3Held.buttonDown3 ≠ 0 ∧ gestureFires potAt10 button3Held = true
      ∧ ∃ s', slidePaint 128 32 potAt10 button3Held = some s'
          ∧ s'.oled 0 0 = TRUE ∧ s'.display 0 0 = OLED_COLOR_WHITE
          ∧ s'.cursorX = 1 ∧ s'.cursorY = 0 := by
  refine ⟨by decide, by decide, ?_⟩
  obtain ⟨s', hs, _, _, _, _, hcell, hwhite, hE, _⟩ :=
    slideGesture_button3 128 32 potAt10 button3Held (by decide) (by decide)
  obtain ⟨m, hm, hx, hy⟩ := hE rfl (by decide)
  have hm' : MoveCursor 128 32 EAST button3Held = some { button3Held with cursorX := 1 } := by
    rw [MoveCursor_EAST, if_pos (by decide)]
    rfl
  have e : m = { button3Held with cursorX := 1 } := Option.some.inj (hm.symm.trans hm')
  subst e
  exact ⟨s', hs, hcell, hwhite, hx, hy⟩

/-- C10 (counterexample): a state reached from power-on in which button 3 is
held, the cursor is at the west edge (0,0) and a long release of button 4 is
pending.  The reading falls from 10 to 0: the gesture fires and sets pixel
(0,0), the move west is clamped, and the pending release is then handled in the
same pass and toggles the same pixel, so that at the end of the loop iteration
the buffer cell at the cursor position before the move is off. -/
theorem slideGesture_then_toggle_clears :
    ∃ s, run 128 32 slideThenHold4 initState = some s
      ∧ s.buttonDown3 ≠ 0 ∧ gestureFires potAt0 s = true
      ∧ s.cursorX = 0 ∧ s.cursorY = 0
      ∧ ∃ s', loopIteration 128 32 potAt0 s = some s'
          ∧ s'.oled s.cursorX s.cursorY = FALSE
          ∧ s'.oled s.cursorX s.cursorY ≠ TRUE :=
  ⟨_, rfl, by decide, by decide, rfl, rfl, _, rfl, rfl, by decide⟩

/-! ## Slide paint with button 2 -/

/-- C11 (the code at the failing input): button 2 held, button 3 not, axis X,
cursor at the origin, the reading rising from 0 to 10.  The gesture fires, the
pass of the loop returns and the cursor moves east to (1,0), but the buffer cell
at the old cursor (0,0) holds `TRUE` afterwards, not false; the display cell is
black. -/
theorem slideGesture_button2_stores_TRUE :
    button2Held.slideAxis = X ∧ button2Held.buttonDown2 ≠ 0 ∧ button2Held.buttonDown3 = 0
      ∧ gestureFires potAt10 button2Held = true
      ∧ ∃ s', loopIteration 128 32 potAt10 button2Held = some s'
          ∧ s'.oled 0 0 = TRUE ∧ s'.oled 0 0 ≠ FALSE
          ∧ s'.display 0 0 = OLED_COLOR_BLACK
          ∧ s'.cursorX = 1 ∧ s'.cursorY = 0 := by
  refine ⟨rfl, by decide, rfl, by decide, ?_⟩
  have hfire : (AdcDidChange potAt10 button2Held).2 ≠ 0
      ∧ ((AdcDidChange potAt10 button2Held).1.buttonDown3 ≠ 0
          ∨ (AdcDidChange potAt10 button2Held).1.buttonDown2 ≠ 0) := by decide
  have ha := AdcDidChange_accepted potAt10 button2Held hfire.1
  have hs : slidePaint 128 32 potAt10 button2Held
      = some { SetCurrentPixel false P_RESET (AdcDidChange potAt10 button2Held).1 with
                cursorX := 1, adcPrevious := 10 } := by
    simp only [slidePaint]
    rw [if_pos hfire, ha]
    rfl
  rw [loopIteration, hs, Option.some_bind, ha]
  exact ⟨_, rfl, rfl, by decide, rfl, rfl, rfl⟩

/-! ## Buffer and display -/

/-- C12 (the code at the failing input): at power-on buffer and display agree on
every cell; after `SetCurrentPixel(P_RESET)` the buffer cell at the cursor is on
while the colour pushed to the display for it is black, and the same
disagreement is reached from power-on by pressing button 2 and turning the
potentiometer. -/
theorem reset_breaks_mirror :
    (∀ x y, mirrors initState x y)
      ∧ (SetCurrentPixel false P_RESET initState).oled 0 0 ≠ 0
      ∧ (SetCurrentPixel false P_RESET initState).display 0 0 = OLED_COLOR_BLACK
      ∧ ¬ mirrors (SetCurrentPixel false P_RESET initState) 0 0
      ∧ ∃ s, run 128 32
            [Step.tick100 BUTTON_EVENT_2DOWN, Step.loop quietInputs, Step.loop potAt10]
            initState = some s
          ∧ ¬ mirrors s 0 0 := by
  refine ⟨?_, by decide, rfl, ?_, ?_⟩
  · intro x y
    simp [mirrors, initState]
  · simp [mirrors, SetCurrentPixel, setCell, initState, TRUE]
  · have hfire : (AdcDidChange potAt10 { button2Held with buttonPressTimer := 0 }).2 ≠ 0
        ∧ ((AdcDidChange potAt10 { button2Held with buttonPressTimer := 0 }).1.buttonDown3 ≠ 0
          ∨ (AdcDidChange potAt10 { button2Held with buttonPressTimer := 0 }).1.buttonDown2 ≠ 0) := by
      decide
    have ha := AdcDidChange_accepted potAt10 { button2Held with buttonPressTimer := 0 } hfire.1
    have hs : slidePaint 128 32 potAt10 { button2Held with buttonPressTimer := 0 }
        = some { SetCurrentPixel false P_RESET
                  (AdcDidChange potAt10 { button2Held with buttonPressTimer := 0 }).1 with
                  cursorX := 1, adcPrevious := 10 } := by
      simp only [slidePaint]
      rw [if_pos hfire, ha]
      rfl
    refine ⟨{ SetCurrentPixel false P_RESET
                (AdcDidChange potAt10 { button2Held with buttonPressTimer := 0 }).1 with
                cursorX := 1, adcPrevious := 10, buttonEvent := BUTTON_EVENT_NONE }, ?_, ?_⟩
    · show (step 128 32 (Step.tick100 BUTTON_EVENT_2DOWN) initState).bind
          (fun s1 => (step 128 32 (Step.loop quietInputs) s1).bind
            (fun s2 => (step 128 32 (Step.loop potAt10) s2).bind (run 128 32 []))) = _
      have e2 : (step 128 32 (Step.tick100 BUTTON_EVENT_2DOWN) initState).bind
          (fun s1 => step 128 32 (Step.loop quietInputs) s1)
          = some { button2Held with buttonPressTimer := 0 } := rfl
      simp only [step, Option.some_bind] at e2 ⊢
      rw [e2, Option.some_bind, loopIteration, hs, Option.some_bind]
      rfl
    · rw [ha]
      simp [mirrors, SetCurrentPixel, setCell, button2Held, initState, TRUE]

/-! ## Shape of one pass of the loop -/

/-- A valid `MoveCursor` call returns the state with a new cursor and nothing
else changed; from a cursor inside the grid the new cursor is inside it. -/
theorem MoveCursor_valid (cols rows : Nat) (d : Direction) (s : State) (hd : validDir d) :
    ∃ x y, MoveCursor cols rows d s = some { s with cursorX := x, cursorY := y }
      ∧ (inGrid cols rows s → x < cols ∧ y < rows) := by
  obtain ⟨m, hm, hq⟩ := MoveCursor_cursor_only cols rows d s s hd rfl rfl
  refine ⟨m.cursorX, m.cursorY, hq, fun hin => ?_⟩
  obtain ⟨s', hs', hg⟩ := MoveCursor_inGrid cols rows d s hd hin
  have e : s' = m := Option.some.inj (hs'.symm.trans hm)
  subst e
  exact hg

/-- The paint of the gesture writes the buffer, the display and the text only. -/
theorem slidePaintPixel_shape (sw4 : Bool) (a : State) :
    ∃ o d sc out, slidePaintPixel sw4 a
      = { a with oled := o, display := d, screen := sc, stdout := out } := by
  unfold slidePaintPixel
  split
  · exact ⟨_, _, _, _, rfl⟩
  · split
    · exact ⟨_, _, _, _, rfl⟩
    · exact ⟨a.oled, a.display, a.screen, a.stdout, rfl⟩

/-- When the gesture fires, the slide-paint part returns: the three analog
samples hold the new reading, the cursor is the one a valid `MoveCursor` call
gives from the old cursor, the paint has written buffer, display and text, and
everything else is as before. -/
theorem slidePaint_fires (cols rows : Nat) (inp : Inputs) (s : State)
    (hg : gestureFires inp s = true) :
    ∃ x y o d sc out, slidePaint cols rows inp s
        = some { s with cursorX := x, cursorY := y, oled := o, display := d, screen := sc,
                        stdout := out, adcNew := inp.adcRead % 65536,
                        previousAdc := inp.adcRead % 65536,
                        adcPrevious := inp.adcRead % 65536 }
      ∧ (inGrid cols rows s → x < cols ∧ y < rows) := by
  have hg1 : (AdcDidChange inp s).2 ≠ 0
      ∧ ((AdcDidChange inp s).1.buttonDown3 ≠ 0 ∨ (AdcDidChange inp s).1.buttonDown2 ≠ 0) :=
    of_decide_eq_true hg
  have ha := AdcDidChange_accepted inp s hg1.1
  obtain ⟨o, d, sc, out, hp⟩ := slidePaintPixel_shape inp.sw4 (AdcDidChange inp s).1
  obtain ⟨x, y, hm, hin⟩ := MoveCursor_valid cols rows
    (slideDirection (slidePaintPixel inp.sw4 (AdcDidChange inp s).1))
    (slidePaintPixel inp.sw4 (AdcDidChange inp s).1) (slideDirection_valid _)
  refine ⟨x, y, o, d, sc, out, ?_, fun h => hin ?_⟩
  · simp only [slidePaint]
    rw [if_pos hg1, hm, hp, ha]
    rfl
  · rw [hp, ha]
    exact h

/-- The slide-paint part of the loop body always returns, leaves the pending
event, the press timer, the held flags and the slide axis alone, and keeps a
cursor that is inside the grid inside it. -/
theorem slidePaint_shape (cols rows : Nat) (inp : Inputs) (s : State) :
    ∃ x y o d sc out n1 n2 n3, slidePaint cols rows inp s
        = some { s with cursorX := x, cursorY := y, oled := o, display := d, screen := sc,
                        stdout := out, adcNew := n1, previousAdc := n2, adcPrevious := n3 }
      ∧ (inGrid cols rows s → x < cols ∧ y < rows) := by
  by_cases hg : gestureFires inp s = true
  · obtain ⟨x, y, o, d, sc, out, h, hin⟩ := slidePaint_fires cols rows inp s hg
    exact ⟨x, y, o, d, sc, out, _, _, _, h, hin⟩
  · have hg' : gestureFires inp s = false := by simpa using hg
    obtain ⟨n1, n2, ha⟩ := AdcDidChange_frame inp s
    refine ⟨s.cursorX, s.cursorY, s.oled, s.display, s.screen, s.stdout, n1, n2, s.adcPrevious,
      ?_, fun h => h⟩
    rw [slidePaint_idle cols rows inp s hg', ha]

/-- Draining the pending event always returns, clears the mailbox, leaves the
three analog samples alone, and keeps a cursor that is inside the grid inside
it. -/
theorem handleButtonEvent_shape (cols rows : Nat) (sw4 : Bool) (s : State) :
    ∃ x y t ax b2 b3 o d sc out, handleButtonEvent cols rows sw4 s
        = some { s with buttonEvent := BUTTON_EVENT_NONE, cursorX := x, cursorY := y,
                        buttonPressTimer := t, slideAxis := ax, buttonDown2 := b2,
                        buttonDown3 := b3, oled := o, display := d, screen := sc,
                        stdout := out }
      ∧ (inGrid cols rows s → x < cols ∧ y < rows) := by
  obtain ⟨xn, yn, hn, gn⟩ := MoveCursor_valid cols rows NORTH s (Or.inl rfl)
  obtain ⟨xe, ye, he, ge⟩ := MoveCursor_valid cols rows EAST s (Or.inr (Or.inl rfl))
  obtain ⟨xs, ys, hs, gs⟩ := MoveCursor_valid cols rows SOUTH s (Or.inr (Or.inr (Or.inl rfl)))
  obtain ⟨xw, yw, hw, gw⟩ := MoveCursor_valid cols rows WEST s (Or.inr (Or.inr (Or.inr rfl)))
  cases hev : s.buttonEvent
  · refine ⟨s.cursorX, s.cursorY, s.buttonPressTimer, s.slideAxis, s.buttonDown2, s.buttonDown3,
      s.oled, s.display, s.screen, s.stdout, ?_, fun h => h⟩
    simp only [handleButtonEvent, hev, ne_eq, not_true_eq_false, if_false]
    congr 1
    rw [← hev]
  · by_cases ht : s.buttonPressTimer < LONG_PRESS
    · exact ⟨xw, yw, _, _, _, _, _, _, _, _, by
        simp only [handleButtonEvent, handleEvent, hev, ht, hw]; rfl, gw⟩
    · exact ⟨s.cursorX, s.cursorY, _, _, _, _, _, _, _, _, by
        simp only [handleButtonEvent, handleEvent, hev, ht]; rfl, fun h => h⟩
  · exact ⟨s.cursorX, s.cursorY, _, _, _, _, _, _, _, _, by
      simp only [handleButtonEvent, handleEvent, hev]; rfl, fun h => h⟩
  · by_cases ht : s.buttonPressTimer < LONG_PRESS
    · exact ⟨xs, ys, _, _, _, _, _, _, _, _, by
        simp only [handleButtonEvent, handleEvent, hev, ht, hs]; rfl, gs⟩
    · exact ⟨s.cursorX, s.cursorY, _, _, _, _, _, _, _, _, by
        simp only [handleButtonEvent, handleEvent, hev, ht]; rfl, fun h => h⟩
  · exact ⟨s.cursorX, s.cursorY, _, _, _, _, _, _, _, _, by
      simp only [handleButtonEvent, handleEvent, hev]; rfl, fun h => h⟩
  · by_cases ht : s.buttonPressTimer < LONG_PRESS
    · exact ⟨xe, ye, _, _, _, _, _, _, _, _, by
        simp only [handleButtonEvent, handleEvent, hev, ht, he]; rfl, ge⟩
    · exact ⟨s.cursorX, s.cursorY, _, _, _, _, _, _, _, _, by
        simp only [handleButtonEvent, handleEvent, hev, ht]; rfl, fun h => h⟩
  · exact ⟨s.cursorX, s.cursorY, _, _, _, _, _, _, _, _, by
      simp only [handleButtonEvent, handleEvent, hev]; rfl, fun h => h⟩
  · by_cases ht : s.buttonPressTimer < LONG_PRESS
    · exact ⟨xn, yn, _, _, _, _, _, _, _, _, by
        simp only [handleButtonEvent, handleEvent, hev, ht, hn]; rfl, gn⟩
    · exact ⟨s.cursorX, s.cursorY, _, _, _, _, _, _, _, _, by
        simp only [handleButtonEvent, handleEvent, hev, ht]; rfl, fun h => h⟩
  · exact ⟨s.cursorX, s.cursorY, _, _, _, _, _, _, _, _, by
      simp only [handleButtonEvent, handleEvent, hev]; rfl, fun h => h⟩

/-- A pass of the loop always returns, with the mailbox cleared and a cursor
that is inside the grid still inside it. -/
theorem loopIteration_shape (cols rows : Nat) (inp : Inputs) (s : State) :
    ∃ s', loopIteration cols rows inp s = some s' ∧ s'.buttonEvent = BUTTON_EVENT_NONE
      ∧ (inGrid cols rows s → inGrid cols rows s') := by
  obtain ⟨x, y, o, d, sc, out, n1, n2, n3, h1, g1⟩ := slidePaint_shape cols rows inp s
  obtain ⟨x2, y2, t, ax, b2, b3, o2, d2, sc2, out2, h2, g2⟩ :=
    handleButtonEvent_shape cols rows inp.sw4
      { s with cursorX := x, cursorY := y, oled := o, display := d, screen := sc,
               stdout := out, adcNew := n1, previousAdc := n2, adcPrevious := n3 }
  refine ⟨_, by rw [loopIteration, h1, Option.some_bind, h2], rfl, fun hin => ?_⟩
  exact g2 (g1 hin)

/-! ## When the gesture fires -/

/-- `AdcDidChange` returns true exactly when the driver reports a change and the
new reading differs from `previousAdc` by more than the buffer. -/
theorem AdcDidChange_snd (inp : Inputs) (s : State) :
    (AdcDidChange inp s).2 ≠ 0 ↔
      (inp.adcChanged = true
        ∧ |((inp.adcRead % 65536 : Nat) : Int) - (s.previousAdc : Int)| > ADC_CHANGED_BUFFER) := by
  have habs : |((inp.adcRead % 65536 : Nat) : Int) - (s.previousAdc : Int)| > ADC_CHANGED_BUFFER
      ↔ ((s.previousAdc : Int) - ((inp.adcRead % 65536 : Nat) : Int) > ADC_CHANGED_BUFFER
        ∨ (s.previousAdc : Int) - ((inp.adcRead % 65536 : Nat) : Int) < -ADC_CHANGED_BUFFER) := by
    rw [gt_iff_lt, lt_abs]
    simp only [ADC_CHANGED_BUFFER]
    constructor
    · rintro (h | h)
      · right; omega
      · left; omega
    · rintro (h | h)
      · right; omega
      · left; omega
  rw [habs]
  by_cases hc : inp.adcChanged = true
  · by_cases hd : (s.previousAdc : Int) - ((inp.adcRead % 65536 : Nat) : Int) > ADC_CHANGED_BUFFER
        ∨ (s.previousAdc : Int) - ((inp.adcRead % 65536 : Nat) : Int) < -ADC_CHANGED_BUFFER
    · simp only [AdcDidChange, if_pos hc, if_pos hd]
      exact ⟨fun _ => ⟨hc, hd⟩, fun _ => by decide⟩
    · simp only [AdcDidChange, if_pos hc, if_neg hd]
      exact ⟨fun h => absurd rfl h, fun h => absurd h.2 hd⟩
  · simp only [AdcDidChange, if_neg hc]
    exact ⟨fun h => absurd rfl h, fun h => absurd h.1 hc⟩

/-- The condition of line 107 in terms of the driver inputs and the state. -/
theorem gestureFires_iff_aux (inp : Inputs) (s : State) :
    gestureFires inp s = true ↔
      (inp.adcChanged = true
        ∧ |((inp.adcRead % 65536 : Nat) : Int) - (s.previousAdc : Int)| > ADC_CHANGED_BUFFER
        ∧ (s.buttonDown2 ≠ 0 ∨ s.buttonDown3 ≠ 0)) := by
  obtain ⟨n1, n2, ha⟩ := AdcDidChange_frame inp s
  have hb3 : (AdcDidChange inp s).1.buttonDown3 = s.buttonDown3 := by rw [ha]
  have hb2 : (AdcDidChange inp s).1.buttonDown2 = s.buttonDown2 := by rw [ha]
  unfold gestureFires
  rw [decide_eq_true_iff, hb3, hb2, AdcDidChange_snd]
  constructor
  · rintro ⟨⟨h1, h2⟩, h3⟩
    exact ⟨h1, h2, h3.symm⟩
  · rintro ⟨h1, h2, h3⟩
    exact ⟨⟨h1, h2⟩, h3.symm⟩

/-- C14 (as amended): in every state, hence in every state reachable from
power-on, a pass of the loop fires the slide-paint gesture if and only if the
analog driver reports a change, the new reading differs by more than
`ADC_CHANGED_BUFFER` from `previousAdc` (the last reading `AdcDidChange`
accepted), and button 2 or button 3 is held.  When it does not fire, the
slide-paint part is `AdcDidChange` alone; when it fires, the part paints, moves
the cursor by one valid `MoveCursor` call and stores the new reading in
`adc[PREVIOUS]`. -/
theorem gestureFires_iff (cols rows : Nat) (inp : Inputs) (s : State) :
    (gestureFires inp s = true ↔
        (inp.adcChanged = true
          ∧ |((inp.adcRead % 65536 : Nat) : Int) - (s.previousAdc : Int)| > ADC_CHANGED_BUFFER
          ∧ (s.buttonDown2 ≠ 0 ∨ s.buttonDown3 ≠ 0)))
      ∧ (gestureFires inp s = false → slidePaint cols rows inp s = some (AdcDidChange inp s).1)
      ∧ (gestureFires inp s = true →
          ∃ x y o d sc out, slidePaint cols rows inp s
            = some { s with cursorX := x, cursorY := y, oled := o, display := d, screen := sc,
                            stdout := out, adcNew := inp.adcRead % 65536,
                            previousAdc := inp.adcRead % 65536,
                            adcPrevious := inp.adcRead % 65536 }) := by
  refine ⟨gestureFires_iff_aux inp s, slidePaint_idle cols rows inp s, fun hg => ?_⟩
  obtain ⟨x, y, o, d, sc, out, h, _⟩ := slidePaint_fires cols rows inp s hg
  exact ⟨x, y, o, d, sc, out, h⟩

/-- C14 (counterexample): from power-on, turn the potentiometer to 10 with no
button held, then press button 3.  In the state reached, `adc[PREVIOUS]` is
still 0 and `previousAdc` is 10; a reported reading of 12 differs from
`adc[PREVIOUS]` by more than the buffer while button 3 is held, and the gesture
does not fire. -/
theorem gesture_not_by_adcPrevious :
    ∃ s, run 128 32 [Step.loop potAt10, Step.tick100 BUTTON_EVENT_3DOWN, Step.loop quietInputs]
          initState = some s
      ∧ potAt12.adcChanged = true
      ∧ |((potAt12.adcRead % 65536 : Nat) : Int) - (s.adcPrevious : Int)| > ADC_CHANGED_BUFFER
      ∧ (s.buttonDown2 ≠ 0 ∨ s.buttonDown3 ≠ 0)
      ∧ gestureFires potAt12 s = false :=
  ⟨_, rfl, rfl, by decide, Or.inr (by decide), by decide⟩

/-- C15: if the analog driver reports no change, or the new reading is within
`ADC_CHANGED_BUFFER` of the last accepted reading, or neither button 2 nor
button 3 is held, the analog part of the pass returns with the cursor, the
pixel buffer, the slide axis and `adc[PREVIOUS]` unchanged; and over a whole
pass of the loop `adc[PREVIOUS]` changes only if the gesture fires, in which
case it holds the new sample. -/
theorem analog_idle_frame (cols rows : Nat) (inp : Inputs) (s : State)
    (h : inp.adcChanged = false
      ∨ |((inp.adcRead % 65536 : Nat) : Int) - (s.previousAdc : Int)| ≤ ADC_CHANGED_BUFFER
      ∨ (s.buttonDown2 = 0 ∧ s.buttonDown3 = 0)) :
    (∃ s', slidePaint cols rows inp s = some s'
        ∧ s'.cursorX = s.cursorX ∧ s'.cursorY = s.cursorY ∧ s'.oled = s.oled
        ∧ s'.slideAxis = s.slideAxis ∧ s'.adcPrevious = s.adcPrevious)
      ∧ (∀ t, ∃ t', loopIteration cols rows inp t = some t'
          ∧ (t'.adcPrevious ≠ t.adcPrevious → gestureFires inp t = true)
          ∧ (gestureFires inp t = true → t'.adcPrevious = inp.adcRead % 65536)) := by
  constructor
  · have hg : gestureFires inp s = false := by
      cases hgs : gestureFires inp s
      · rfl
      · obtain ⟨h1, h2, h3⟩ := (gestureFires_iff_aux inp s).mp hgs
        rcases h with h | h | h
        · rw [h1] at h; exact absurd h (by decide)
        · exact absurd h2 (not_lt.mpr h)
        · rcases h3 with h3 | h3
          · exact absurd h.1 h3
          · exact absurd h.2 h3
    obtain ⟨n1, n2, ha⟩ := AdcDidChange_frame inp s
    refine ⟨_, slidePaint_idle cols rows inp s hg, ?_⟩
    rw [ha]
    exact ⟨rfl, rfl, rfl, rfl, rfl⟩
  · intro t
    by_cases hg : gestureFires inp t = true
    · obtain ⟨x, y, o, d, sc, out, h1, _⟩ := slidePaint_fires cols rows inp t hg
      obtain ⟨x2, y2, tm, ax, b2, b3, o2, d2, sc2, out2, h2, _⟩ :=
        handleButtonEvent_shape cols rows inp.sw4
          { t with cursorX := x, cursorY := y, oled := o, display := d, screen := sc,
                   stdout := out, adcNew := inp.adcRead % 65536,
                   previousAdc := inp.adcRead % 65536, adcPrevious := inp.adcRead % 65536 }
      exact ⟨_, by rw [loopIteration, h1, Option.some_bind, h2], by intro _; exact hg,
        by intro _; rfl⟩
    · have hg' : gestureFires inp t = false := by simpa using hg
      obtain ⟨n1, n2, ha⟩ := AdcDidChange_frame inp t
      obtain ⟨x2, y2, tm, ax, b2, b3, o2, d2, sc2, out2, h2, _⟩ :=
        handleButtonEvent_shape cols rows inp.sw4 { t with adcNew := n1, previousAdc := n2 }
      exact ⟨_, by rw [loopIteration, slidePaint_idle cols rows inp t hg', ha,
        Option.some_bind, h2], by intro hne; exact absurd rfl hne, by intro hf; exact absurd hf hg⟩

/-- C15 at a concrete input: the reading rises to 10 with no button held. -/
theorem analog_idle_frame_witness :
    (initState.buttonDown2 = 0 ∧ initState.buttonDown3 = 0)
      ∧ ∃ s', slidePaint 128 32 potAt10 initState = some s'
          ∧ s'.cursorX = initState.cursorX ∧ s'.cursorY = initState.cursorY
          ∧ s'.oled = initState.oled ∧ s'.slideAxis = initState.slideAxis
          ∧ s'.adcPrevious = initState.adcPrevious :=
  ⟨⟨rfl, rfl⟩, (analog_idle_frame 128 32 potAt10 initState (Or.inr (Or.inr ⟨rfl, rfl⟩))).1⟩

/-! ## Frames of the two operations -/

/-- C16: `MoveCursor` leaves every pixel-buffer cell unchanged, for every
direction code and state (it returns for the four directions); and
`SetCurrentPixel` leaves the cursor unchanged and every buffer cell other than
the one at the cursor unchanged, for every mode and state. -/
theorem MoveCursor_SetCurrentPixel_frames (cols rows : Nat) (d : Direction) (sw4 : Bool)
    (mode : Mode) (s : State) :
    (∀ q, MoveCursor cols rows d s = some q → ∀ i j, q.oled i j = s.oled i j)
      ∧ (validDir d → ∃ q, MoveCursor cols rows d s = some q ∧ q.oled = s.oled)
      ∧ (SetCurrentPixel sw4 mode s).cursorX = s.cursorX
      ∧ (SetCurrentPixel sw4 mode s).cursorY = s.cursorY
      ∧ (∀ i j, ¬ (i = s.cursorX ∧ j = s.cursorY) →
          (SetCurrentPixel sw4 mode s).oled i j = s.oled i j) := by
  refine ⟨?_, ?_, rfl, rfl, ?_⟩
  · intro q hq i j
    by_cases hd : validDir d
    · obtain ⟨x, y, hm, _⟩ := MoveCursor_valid cols rows d s hd
      have e : q = { s with cursorX := x, cursorY := y } := Option.some.inj (hq.symm.trans hm)
      rw [e]
    · unfold validDir at hd
      have h1 : ¬ d = NORTH := fun h => hd (Or.inl h)
      have h2 : ¬ d = EAST := fun h => hd (Or.inr (Or.inl h))
      have h3 : ¬ d = SOUTH := fun h => hd (Or.inr (Or.inr (Or.inl h)))
      have h4 : ¬ d = WEST := fun h => hd (Or.inr (Or.inr (Or.inr h)))
      rw [MoveCursor, if_neg h1, if_neg h2, if_neg h3, if_neg h4] at hq
      exact absurd hq (by simp)
  · intro hd
    obtain ⟨x, y, hm, _⟩ := MoveCursor_valid cols rows d s hd
    exact ⟨_, hm, rfl⟩
  · intro i j hij
    rw [SetCurrentPixel_oled]
    simp [setCell, hij]

/-- C16 at a concrete input: EAST from the origin keeps the blank buffer. -/
theorem MoveCursor_SetCurrentPixel_frames_witness :
    validDir EAST ∧ ∃ q, MoveCursor 128 32 EAST initState = some q ∧ q.oled = initState.oled :=
  ⟨by decide,
    (MoveCursor_SetCurrentPixel_frames 128 32 EAST false P_SET initState).2.1 (by decide)⟩

/-! ## Down-events and the mailbox -/

/-- C19: handling any of the four down-events returns with `buttonPressTimer`
at 0 and with the cursor, the pixel buffer and the slide axis unchanged; the
whole pass of the loop that handles it ends with the timer at 0, and with
cursor, buffer and axis unchanged when no slide gesture fires in it. -/
theorem downEvent_resets_timer (cols rows : Nat) (inp : Inputs) (s : State)
    (hev : s.buttonEvent = BUTTON_EVENT_1DOWN ∨ s.buttonEvent = BUTTON_EVENT_2DOWN
      ∨ s.buttonEvent = BUTTON_EVENT_3DOWN ∨ s.buttonEvent = BUTTON_EVENT_4DOWN) :
    (∃ s', handleButtonEvent cols rows inp.sw4 s = some s'
        ∧ s'.buttonPressTimer = 0
        ∧ s'.cursorX = s.cursorX ∧ s'.cursorY = s.cursorY
        ∧ s'.oled = s.oled ∧ s'.slideAxis = s.slideAxis)
      ∧ (∃ s', loopIteration cols rows inp s = some s'
        ∧ s'.buttonPressTimer = 0
        ∧ (gestureFires inp s = false →
            s'.cursorX = s.cursorX ∧ s'.cursorY = s.cursorY
            ∧ s'.oled = s.oled ∧ s'.slideAxis = s.slideAxis)) := by
  have key : ∀ a : State, a.buttonEvent = s.buttonEvent →
      ∃ s', handleButtonEvent cols rows inp.sw4 a = some s'
        ∧ s'.buttonPressTimer = 0
        ∧ s'.cursorX = a.cursorX ∧ s'.cursorY = a.cursorY
        ∧ s'.oled = a.oled ∧ s'.slideAxis = a.slideAxis := by
    intro a ha
    rcases hev with h | h | h | h
    all_goals
      rw [h] at ha
      simp only [handleButtonEvent, handleEvent, ha]
      exact ⟨_, rfl, rfl, rfl, rfl, rfl, rfl⟩
  refine ⟨key s rfl, ?_⟩
  by_cases hg : gestureFires inp s = true
  · obtain ⟨x, y, o, d, sc, out, n1, n2, n3, h1, _⟩ := slidePaint_shape cols rows inp s
    obtain ⟨s', h2, ht, _⟩ := key
      { s with cursorX := x, cursorY := y, oled := o, display := d, screen := sc,
               stdout := out, adcNew := n1, previousAdc := n2, adcPrevious := n3 } rfl
    exact ⟨s', by rw [loopIteration, h1, Option.some_bind, h2], ht,
      fun hf => absurd hg (by rw [hf]; decide)⟩
  · have hg' : gestureFires inp s = false := by simpa using hg
    obtain ⟨n1, n2, ha⟩ := AdcDidChange_frame inp s
    obtain ⟨s', h2, ht, hx, hy, ho, hax⟩ := key { s with adcNew := n1, previousAdc := n2 } rfl
    exact ⟨s', by rw [loopIteration, slidePaint_idle cols rows inp s hg', ha,
      Option.some_bind, h2], ht, fun _ => ⟨hx, hy, ho, hax⟩⟩

/-- C19 at a concrete input: the down-event of button 4 with the timer at 7. -/
theorem downEvent_resets_timer_witness :
    (pendingState BUTTON_EVENT_4DOWN 7).buttonEvent = BUTTON_EVENT_4DOWN
      ∧ (pendingState BUTTON_EVENT_4DOWN 7).buttonPressTimer = 7
      ∧ ∃ s', handleButtonEvent 128 32 quietInputs.sw4 (pendingState BUTTON_EVENT_4DOWN 7) = some s'
          ∧ s'.buttonPressTimer = 0
          ∧ s'.cursorX = (pendingState BUTTON_EVENT_4DOWN 7).cursorX
          ∧ s'.cursorY = (pendingState BUTTON_EVENT_4DOWN 7).cursorY
          ∧ s'.oled = (pendingState BUTTON_EVENT_4DOWN 7).oled
          ∧ s'.slideAxis = (pendingState BUTTON_EVENT_4DOWN 7).slideAxis :=
  ⟨rfl, rfl,
    (downEvent_resets_timer 128 32 quietInputs (pendingState BUTTON_EVENT_4DOWN 7)
      (Or.inr (Or.inr (Or.inr rfl)))).1⟩

/-- When `AdcDidChange` returns false it has changed nothing. -/
theorem AdcDidChange_rejected (inp : Inputs) (s : State) (h : (AdcDidChange inp s).2 = FALSE) :
    (AdcDidChange inp s).1 = s := by
  by_cases hc : inp.adcChanged = true
  · by_cases hd : (s.previousAdc : Int) - ((inp.adcRead % 65536 : Nat) : Int)
          > ADC_CHANGED_BUFFER
        ∨ (s.previousAdc : Int) - ((inp.adcRead % 65536 : Nat) : Int) < -ADC_CHANGED_BUFFER
    · simp only [AdcDidChange, if_pos hc, if_pos hd] at h
      exact absurd h (by decide)
    · simp only [AdcDidChange, if_pos hc, if_neg hd]
  · simp only [AdcDidChange, if_neg hc]

/-- A pass of the loop with an empty mailbox and no gesture is `AdcDidChange`
alone: when the reading is accepted, `adc[NEW]` and `previousAdc` take it and
nothing else changes; when it is not, nothing changes. -/
theorem idle_pass (cols rows : Nat) (inp : Inputs) (s : State)
    (hev : s.buttonEvent = BUTTON_EVENT_NONE) (hg : gestureFires inp s = false) :
    loopIteration cols rows inp s = some (AdcDidChange inp s).1
      ∧ ((AdcDidChange inp s).2 ≠ 0 →
          loopIteration cols rows inp s
            = some { s with adcNew := inp.adcRead % 65536,
                            previousAdc := inp.adcRead % 65536 })
      ∧ ((AdcDidChange inp s).2 = FALSE → loopIteration cols rows inp s = some s) := by
  obtain ⟨n1, n2, ha⟩ := AdcDidChange_frame inp s
  have hl : loopIteration cols rows inp s = some (AdcDidChange inp s).1 := by
    rw [loopIteration, slidePaint_idle cols rows inp s hg, Option.some_bind,
      handleButtonEvent, if_neg]
    rw [ha]
    exact fun h => h hev
  refine ⟨hl, fun hacc => ?_, fun hrej => ?_⟩
  · rw [hl, AdcDidChange_accepted inp s hacc]
  · rw [hl, AdcDidChange_rejected inp s hrej]

/-- C20 (as amended): the pass of the loop that handles a button event (any
pass, in fact) returns with the mailbox at `BUTTON_EVENT_NONE`; a pass that
starts with the mailbox empty and in which no slide gesture fires is
`AdcDidChange` alone: when `AdcDidChange` accepts the reading (the driver
reports a change and the reading differs from `previousAdc` by more than the
buffer), `adc[NEW]` and `previousAdc` take the new reading and nothing else
changes, and when it returns false nothing changes at all; so the pass after
the one that handled an event acts on no event. -/
theorem mailbox_cleared_and_idle (cols rows : Nat) (inp inp2 : Inputs) (s : State) :
    (∃ s', loopIteration cols rows inp s = some s' ∧ s'.buttonEvent = BUTTON_EVENT_NONE
        ∧ (gestureFires inp2 s' = false →
            ((AdcDidChange inp2 s').2 ≠ 0 →
                loopIteration cols rows inp2 s'
                  = some { s' with adcNew := inp2.adcRead % 65536,
                                   previousAdc := inp2.adcRead % 65536 })
            ∧ ((AdcDidChange inp2 s').2 = FALSE → loopIteration cols rows inp2 s' = some s')))
      ∧ (s.buttonEvent = BUTTON_EVENT_NONE → gestureFires inp s = false →
          ((AdcDidChange inp s).2 ≠ 0 ↔
              (inp.adcChanged = true
                ∧ |((inp.adcRead % 65536 : Nat) : Int) - (s.previousAdc : Int)|
                    > ADC_CHANGED_BUFFER))
          ∧ ((AdcDidChange inp s).2 ≠ 0 →
              loopIteration cols rows inp s
                = some { s with adcNew := inp.adcRead % 65536,
                                previousAdc := inp.adcRead % 65536 })
          ∧ ((AdcDidChange inp s).2 = FALSE → loopIteration cols rows inp s = some s))
      ∧ (s.buttonEvent = BUTTON_EVENT_NONE → (AdcDidChange inp s).2 = FALSE →
          loopIteration cols rows inp s = some s) := by
  refine ⟨?_, ?_, ?_⟩
  · obtain ⟨s', h1, h2, _⟩ := loopIteration_shape cols rows inp s
    exact ⟨s', h1, h2, fun hg => (idle_pass cols rows inp2 s' h2 hg).2⟩
  · intro hev hg
    exact ⟨AdcDidChange_snd inp s, (idle_pass cols rows inp s hev hg).2⟩
  · intro hev hr
    exact (idle_pass cols rows inp s hev (gestureFires_of_not_accepted inp s hr)).2.2 hr

/-- C20 at concrete inputs: at power-on an idle pass with no reported change
changes nothing, and an idle pass in which the reading 10 is accepted changes
`adc[NEW]` and `previousAdc` to 10 and nothing else. -/
theorem mailbox_cleared_and_idle_witness :
    initState.buttonEvent = BUTTON_EVENT_NONE
      ∧ (AdcDidChange quietInputs initState).2 = FALSE
      ∧ loopIteration 128 32 quietInputs initState = some initState
      ∧ gestureFires potAt10 initState = false
      ∧ (AdcDidChange potAt10 initState).2 ≠ 0
      ∧ loopIteration 128 32 potAt10 initState
          = some { initState with adcNew := potAt10.adcRead % 65536,
                                  previousAdc := potAt10.adcRead % 65536 } :=
  ⟨rfl, rfl, (mailbox_cleared_and_idle 128 32 quietInputs quietInputs initState).2.2 rfl rfl,
    by decide, by decide,
    ((mailbox_cleared_and_idle 128 32 potAt10 quietInputs initState).2.1 rfl
      (by decide)).2.1 (by decide)⟩

/-- C20 (counterexample): at power-on the mailbox is empty and no button is
held; a pass of the loop in which the reading rises to 10 fires no gesture, yet
leaves `adc[NEW]` and `previousAdc` at 10 instead of 0. -/
theorem idle_pass_changes_adc :
    initState.buttonEvent = BUTTON_EVENT_NONE
      ∧ gestureFires potAt10 initState = false
      ∧ loopIteration 128 32 potAt10 initState ≠ some initState
      ∧ ∃ s', loopIteration 128 32 potAt10 initState = some s'
          ∧ s'.adcNew = 10 ∧ initState.adcNew = 0
          ∧ s'.previousAdc = 10 ∧ initState.previousAdc = 0 := by
  have e : loopIteration 128 32 potAt10 initState
      = some { initState with adcNew := 10, previousAdc := 10 } := rfl
  refine ⟨rfl, by decide, ?_, _, e, rfl, rfl, rfl, rfl⟩
  rw [e]
  intro h
  have h1 := congrArg State.adcNew (Option.some.inj h)
  exact absurd h1 (by decide)

/-! ## Safety along every run -/

/-- What draining the pending event does to the two held flags. -/
theorem handleButtonEvent_flags (cols rows : Nat) (sw4 : Bool) (a : State) :
    ∃ s', handleButtonEvent cols rows sw4 a = some s'
      ∧ s'.buttonDown3 = (if a.buttonEvent = BUTTON_EVENT_3DOWN then TRUE
          else if a.buttonEvent = BUTTON_EVENT_3UP then FALSE else a.buttonDown3)
      ∧ s'.buttonDown2 = (if a.buttonEvent = BUTTON_EVENT_2DOWN then TRUE
          else if a.buttonEvent = BUTTON_EVENT_2UP then FALSE else a.buttonDown2) := by
  obtain ⟨xn, yn, hn, _⟩ := MoveCursor_valid cols rows NORTH a (Or.inl rfl)
  obtain ⟨xe, ye, he, _⟩ := MoveCursor_valid cols rows EAST a (Or.inr (Or.inl rfl))
  obtain ⟨xs, ys, hs, _⟩ := MoveCursor_valid cols rows SOUTH a (Or.inr (Or.inr (Or.inl rfl)))
  obtain ⟨xw, yw, hw, _⟩ := MoveCursor_valid cols rows WEST a (Or.inr (Or.inr (Or.inr rfl)))
  cases hev : a.buttonEvent
  · exact ⟨a, by simp only [handleButtonEvent, hev, ne_eq, not_true_eq_false, if_false],
      by simp, by simp⟩
  · by_cases ht : a.buttonPressTimer < LONG_PRESS
    · exact ⟨_, by simp only [handleButtonEvent, handleEvent, hev, ht, hw]; rfl, by simp, by simp⟩
    · exact ⟨_, by simp only [handleButtonEvent, handleEvent, hev, ht]; rfl, by simp, by simp⟩
  · exact ⟨_, by simp only [handleButtonEvent, handleEvent, hev]; rfl, by simp, by simp⟩
  · by_cases ht : a.buttonPressTimer < LONG_PRESS
    · exact ⟨_, by simp only [handleButtonEvent, handleEvent, hev, ht, hs]; rfl, by simp, by simp⟩
    · exact ⟨_, by simp only [handleButtonEvent, handleEvent, hev, ht]; rfl, by simp, by simp⟩
  · exact ⟨_, by simp only [handleButtonEvent, handleEvent, hev]; rfl, by simp, by simp⟩
  · by_cases ht : a.buttonPressTimer < LONG_PRESS
    · exact ⟨_, by simp only [handleButtonEvent, handleEvent, hev, ht, he]; rfl, by simp, by simp⟩
    · exact ⟨_, by simp only [handleButtonEvent, handleEvent, hev, ht]; rfl, by simp, by simp⟩
  · exact ⟨_, by simp only [handleButtonEvent, handleEvent, hev]; rfl, by simp, by simp⟩
  · by_cases ht : a.buttonPressTimer < LONG_PRESS
    · exact ⟨_, by simp only [handleButtonEvent, handleEvent, hev, ht, hn]; rfl, by simp, by simp⟩
    · exact ⟨_, by simp only [handleButtonEvent, handleEvent, hev, ht]; rfl, by simp [SetCurrentPixel],
        by simp [SetCurrentPixel]⟩
  · exact ⟨_, by simp only [handleButtonEvent, handleEvent, hev]; rfl, by simp, by simp⟩

/-- What a whole pass of the loop does to the two held flags. -/
theorem loopIteration_flags (cols rows : Nat) (inp : Inputs) (s : State) :
    ∃ s', loopIteration cols rows inp s = some s'
      ∧ s'.buttonDown3 = (if s.buttonEvent = BUTTON_EVENT_3DOWN then TRUE
          else if s.buttonEvent = BUTTON_EVENT_3UP then FALSE else s.buttonDown3)
      ∧ s'.buttonDown2 = (if s.buttonEvent = BUTTON_EVENT_2DOWN then TRUE
          else if s.buttonEvent = BUTTON_EVENT_2UP then FALSE else s.buttonDown2) := by
  obtain ⟨x, y, o, d, sc, out, n1, n2, n3, h1, _⟩ := slidePaint_shape cols rows inp s
  obtain ⟨s', h2, h3, h4⟩ := handleButtonEvent_flags cols rows inp.sw4
    { s with cursorX := x, cursorY := y, oled := o, display := d, screen := sc,
             stdout := out, adcNew := n1, previousAdc := n2, adcPrevious := n3 }
  exact ⟨s', by rw [loopIteration, h1, Option.some_bind, h2], h3, h4⟩

/-- The last event of a button in two lists one after the other. -/
theorem lastEventOf_append (down up : ButtonEventFlags) (e h : List ButtonEventFlags) :
    lastEventOf down up (e ++ h) = (lastEventOf down up h).or (lastEventOf down up e) := by
  simp [lastEventOf, List.filter_append, List.getLast?_append]

/-- The effect of one step on the held flag of button 3, in terms of the event
the step handles. -/
theorem step_flag3 (cols rows : Nat) (st : Step) (s : State) :
    ∃ s1, step cols rows st s = some s1
      ∧ (s1.buttonDown3 ≠ 0 ↔
          (lastEventOf BUTTON_EVENT_3DOWN BUTTON_EVENT_3UP
              (match st with
                | Step.loop _ =>
                    if s.buttonEvent ≠ BUTTON_EVENT_NONE then [s.buttonEvent] else []
                | _ => []) = some BUTTON_EVENT_3DOWN
            ∨ (lastEventOf BUTTON_EVENT_3DOWN BUTTON_EVENT_3UP
                (match st with
                  | Step.loop _ =>
                      if s.buttonEvent ≠ BUTTON_EVENT_NONE then [s.buttonEvent] else []
                  | _ => []) = none
              ∧ s.buttonDown3 ≠ 0))) := by
  cases st with
  | loop inp =>
    obtain ⟨s1, h1, h3, h2⟩ := loopIteration_flags cols rows inp s
    refine ⟨s1, h1, ?_⟩
    rw [h3]
    cases hev : s.buttonEvent <;> simp [lastEventOf, TRUE, FALSE]
  | tick100 ev => exact ⟨_, rfl, by simp [lastEventOf, TimerInterrupt100Hz]⟩
  | tick5 => exact ⟨_, rfl, by simp [lastEventOf, TimerInterrupt5Hz]⟩

/-- Along a run from any state, the held flag of button 3 is set at the end
exactly when the last handled event of button 3 was its down-event, or no event
of button 3 was handled and the flag was set at the start. -/
theorem run_flag3 (cols rows : Nat) (steps : List Step) (s : State) :
    ∃ s', run cols rows steps s = some s'
      ∧ (s'.buttonDown3 ≠ 0 ↔
          (lastEventOf BUTTON_EVENT_3DOWN BUTTON_EVENT_3UP (handledEvents cols rows steps s)
              = some BUTTON_EVENT_3DOWN
            ∨ (lastEventOf BUTTON_EVENT_3DOWN BUTTON_EVENT_3UP (handledEvents cols rows steps s)
                = none
              ∧ s.buttonDown3 ≠ 0))) := by
  induction steps generalizing s with
  | nil => exact ⟨s, rfl, by simp [handledEvents, lastEventOf]⟩
  | cons st rest ih =>
    obtain ⟨s1, h1, g1⟩ := step_flag3 cols rows st s
    obtain ⟨s2, h2, g2⟩ := ih s1
    refine ⟨s2, by rw [run, h1, Option.some_bind, h2], ?_⟩
    rw [g2, g1]
    simp only [handledEvents, h1, lastEventOf_append]
    cases lastEventOf BUTTON_EVENT_3DOWN BUTTON_EVENT_3UP (handledEvents cols rows rest s1)
      <;> simp

/-- The effect of one step on the held flag of button 2, in terms of the event
the step handles. -/
theorem step_flag2 (cols rows : Nat) (st : Step) (s : State) :
    ∃ s1, step cols rows st s = some s1
      ∧ (s1.buttonDown2 ≠ 0 ↔
          (lastEventOf BUTTON_EVENT_2DOWN BUTTON_EVENT_2UP
              (match st with
                | Step.loop _ =>
                    if s.buttonEvent ≠ BUTTON_EVENT_NONE then [s.buttonEvent] else []
                | _ => []) = some BUTTON_EVENT_2DOWN
            ∨ (lastEventOf BUTTON_EVENT_2DOWN BUTTON_EVENT_2UP
                (match st with
                  | Step.loop _ =>
                      if s.buttonEvent ≠ BUTTON_EVENT_NONE then [s.buttonEvent] else []
                  | _ => []) = none
              ∧ s.buttonDown2 ≠ 0))) := by
  cases st with
  | loop inp =>
    obtain ⟨s1, h1, h3, h2⟩ := loopIteration_flags cols rows inp s
    refine ⟨s1, h1, ?_⟩
    rw [h2]
    cases hev : s.buttonEvent <;> simp [lastEventOf, TRUE, FALSE]
  | tick100 ev => exact ⟨_, rfl, by simp [lastEventOf, TimerInterrupt100Hz]⟩
  | tick5 => exact ⟨_, rfl, by simp [lastEventOf, TimerInterrupt5Hz]⟩

/-- Along a run from any state, the held flag of button 2 is set at the end
exactly when the last handled event of button 2 was its down-event, or no event
of button 2 was handled and the flag was set at the start. -/
theorem run_flag2 (cols rows : Nat) (steps : List Step) (s : State) :
    ∃ s', run cols rows steps s = some s'
      ∧ (s'.buttonDown2 ≠ 0 ↔
          (lastEventOf BUTTON_EVENT_2DOWN BUTTON_EVENT_2UP (handledEvents cols rows steps s)
              = some BUTTON_EVENT_2DOWN
            ∨ (lastEventOf BUTTON_EVENT_2DOWN BUTTON_EVENT_2UP (handledEvents cols rows steps s)
                = none
              ∧ s.buttonDown2 ≠ 0))) := by
  induction steps generalizing s with
  | nil => exact ⟨s, rfl, by simp [handledEvents, lastEventOf]⟩
  | cons st rest ih =>
    obtain ⟨s1, h1, g1⟩ := step_flag2 cols rows st s
    obtain ⟨s2, h2, g2⟩ := ih s1
    refine ⟨s2, by rw [run, h1, Option.some_bind, h2], ?_⟩
    rw [g2, g1]
    simp only [handledEvents, h1, lastEventOf_append]
    cases lastEventOf BUTTON_EVENT_2DOWN BUTTON_EVENT_2UP (handledEvents cols rows rest s1)
      <;> simp

/-- C18: in every state, the pass of the loop that handles the down-event of
button 3 (resp. 2) returns with `buttonDown[3]` (resp. `[2]`) set, the pass that
handles its up-event returns with the flag cleared whatever `buttonPressTimer`
is, and a pass handling any other event or none leaves the flag as it was; so
after every run from power-on the flag is set exactly when the last handled
event of that button was its down-event. -/
theorem heldFlag_tracks_events (cols rows : Nat) (inp : Inputs) (s : State)
    (steps : List Step) :
    (∃ s', loopIteration cols rows inp s = some s'
        ∧ (s.buttonEvent = BUTTON_EVENT_3DOWN → s'.buttonDown3 = TRUE)
        ∧ (s.buttonEvent = BUTTON_EVENT_3UP → s'.buttonDown3 = FALSE)
        ∧ (s.buttonEvent ≠ BUTTON_EVENT_3DOWN → s.buttonEvent ≠ BUTTON_EVENT_3UP →
            s'.buttonDown3 = s.buttonDown3)
        ∧ (s.buttonEvent = BUTTON_EVENT_2DOWN → s'.buttonDown2 = TRUE)
        ∧ (s.buttonEvent = BUTTON_EVENT_2UP → s'.buttonDown2 = FALSE)
        ∧ (s.buttonEvent ≠ BUTTON_EVENT_2DOWN → s.buttonEvent ≠ BUTTON_EVENT_2UP →
            s'.buttonDown2 = s.buttonDown2))
      ∧ (∃ r, run cols rows steps initState = some r
        ∧ (r.buttonDown3 ≠ 0 ↔
            lastEventOf BUTTON_EVENT_3DOWN BUTTON_EVENT_3UP
              (handledEvents cols rows steps initState) = some BUTTON_EVENT_3DOWN)
        ∧ (r.buttonDown2 ≠ 0 ↔
            lastEventOf BUTTON_EVENT_2DOWN BUTTON_EVENT_2UP
              (handledEvents cols rows steps initState) = some BUTTON_EVENT_2DOWN)) := by
  constructor
  · obtain ⟨s', h1, h3, h2⟩ := loopIteration_flags cols rows inp s
    refine ⟨s', h1, ?_, ?_, ?_, ?_, ?_, ?_⟩
    · intro he
      rw [h3, if_pos he]
    · intro he
      rw [h3, if_neg (by rw [he]; decide), if_pos he]
    · intro hd hu
      rw [h3, if_neg hd, if_neg hu]
    · intro he
      rw [h2, if_pos he]
    · intro he
      rw [h2, if_neg (by rw [he]; decide), if_pos he]
    · intro hd hu
      rw [h2, if_neg hd, if_neg hu]
  · obtain ⟨r, hr, g3⟩ := run_flag3 cols rows steps initState
    obtain ⟨r2, hr2, g2⟩ := run_flag2 cols rows steps initState
    have e : r2 = r := Option.some.inj (hr2.symm.trans hr)
    subst e
    refine ⟨r2, hr, ?_, ?_⟩
    · rw [g3]
      simp [initState]
    · rw [g2]
      simp [initState]

/-- C18 at a concrete run: button 3 pressed, released and pressed again, the
loop handling each event; the flag is set at the end. -/
theorem heldFlag_tracks_events_witness :
    ∃ r, run 128 32
          [Step.tick100 BUTTON_EVENT_3DOWN, Step.loop quietInputs,
            Step.tick100 BUTTON_EVENT_3UP, Step.loop quietInputs,
            Step.tick100 BUTTON_EVENT_3DOWN, Step.loop quietInputs]
          initState = some r
      ∧ r.buttonDown3 ≠ 0 := by
  obtain ⟨r, hr, h3, _⟩ := (heldFlag_tracks_events 128 32 quietInputs initState
    [Step.tick100 BUTTON_EVENT_3DOWN, Step.loop quietInputs,
      Step.tick100 BUTTON_EVENT_3UP, Step.loop quietInputs,
      Step.tick100 BUTTON_EVENT_3DOWN, Step.loop quietInputs]).2
  exact ⟨r, hr, h3.mpr (by decide)⟩

/-! ## The exported text -/

/-- Printing two lists of chunks one after the other. -/
theorem join_append (a b : List String) :
    String.join (a ++ b) = String.join a ++ String.join b := by
  apply String.ext
  simp [String.data_join]

/-- Printing one chunk. -/
theorem join_singleton (a : String) : String.join [a] = a := by
  apply String.ext
  simp [String.data_join]

/-- Chunk groups each followed by a separator, except the last one, print as
the groups separated by the separator. -/
theorem join_sepBy (F : Nat → List String) (sep : String) (m s0 : Nat) :
    String.join (((List.range' s0 (m + 1)).map
        (fun j => F j ++ (if j ≠ s0 + m then [sep] else []))).flatten)
      = sepBy sep ((List.range' s0 (m + 1)).map (fun j => String.join (F j))) := by
  induction m generalizing s0 with
  | zero =>
    simp [sepBy]
  | succ k ih =>
    have hne : s0 ≠ s0 + (k + 1) := by omega
    have ih1 := ih (s0 + 1)
    have e : s0 + 1 + k = s0 + (k + 1) := by omega
    rw [e] at ih1
    rw [List.range'_succ s0 (k + 1), List.map_cons, List.flatten_cons, join_append, ih1,
      List.map_cons, if_pos hne, join_append, join_singleton]
    rw [List.range'_succ (s0 + 1) k, List.map_cons]
    simp only [sepBy]

/-- The text of one export (lines 270-281) is two newlines followed by the
matrix literal whose cell `j` of group `i` shows `oled[i][j]`. -/
theorem join_exportChunks (oled : Nat → Nat → Nat) :
    String.join (exportChunks oled)
      = "\n\n" ++ matrixLiteral (fun i j => decide (oled i j ≠ 0)) := by
  have hcells : ∀ i, String.join (((List.range P_OBJ_HEIGHT).map (exportCell oled i)).flatten)
      = sepBy ", " ((List.range 20).map
          (fun j => if decide (oled i j ≠ 0) = true then "1" else "0")) := by
    intro i
    have h := join_sepBy (fun j => [if oled i j ≠ 0 then "1" else "0"]) ", " 19 0
    simp only [join_singleton, Nat.zero_add] at h
    rw [List.range_eq_range']
    simp only [decide_eq_true_eq]
    exact h
  have hgroup : ∀ i, String.join
      (["\x7b "] ++ ((List.range P_OBJ_HEIGHT).map (exportCell oled i)).flatten ++ ["\x7d"])
      = matrixGroup (fun i j => decide (oled i j ≠ 0)) i := by
    intro i
    rw [join_append, join_append, join_singleton, join_singleton, hcells]
    rfl
  have hgroups := join_sepBy
    (fun i => ["\x7b "] ++ ((List.range P_OBJ_HEIGHT).map (exportCell oled i)).flatten ++ ["\x7d"])
    ", " 19 0
  simp only [hgroup, Nat.zero_add] at hgroups
  have hall : String.join (((List.range P_OBJ_WIDTH).map (exportGroup oled)).flatten)
      = sepBy ", " ((List.range 20).map (matrixGroup (fun i j => decide (oled i j ≠ 0)))) := by
    rw [List.range_eq_range']
    exact hgroups
  rw [exportChunks, join_append, join_append, join_singleton, join_singleton, hall, matrixLiteral]
  rw [← String.append_assoc, ← String.append_assoc]
  rfl

/-- C13 (as amended): with `SW4` on, one `SetCurrentPixel` call appends to the
output two newlines and the quoted, brace-wrapped literal of 20 brace-wrapped
groups separated by `, `, each of 20 cells `1` or `0` separated by `, `, in
which cell `j` of group `i` is `1` exactly when `oled[i][j]`, the pixel at
x = i, y = j, is on after the paint; with `SW4` off nothing is appended. -/
theorem SetCurrentPixel_export (mode : Mode) (s : State) :
    (SetCurrentPixel true mode s).stdout
        = s.stdout ++ ("\n\n"
            ++ matrixLiteral (fun i j => decide ((SetCurrentPixel true mode s).oled i j ≠ 0)))
      ∧ (SetCurrentPixel false mode s).stdout = s.stdout := by
  refine ⟨?_, rfl⟩
  rw [← join_exportChunks]
  rfl

set_option maxRecDepth 100000 in
/-- C13 (counterexample): with the cursor at x = 1, y = 0 and `SW4` on,
`SetCurrentPixel(P_SET)` turns the pixel at x = 1, y = 0 on, and the text
printed is not the literal whose cell `j` of group `i` shows the pixel at
y = i, x = j. -/
theorem export_not_row_major :
    (SetCurrentPixel true P_SET rightOfOrigin).oled 1 0 ≠ 0
      ∧ (SetCurrentPixel true P_SET rightOfOrigin).stdout
          ≠ rightOfOrigin.stdout ++ ("\n\n"
              ++ matrixLiteral
                  (fun i j => decide ((SetCurrentPixel true P_SET rightOfOrigin).oled j i ≠ 0))) := by
  constructor
  · decide
  · decide

end OledDraw
